import Mathlib

/-!
Verification of the watchout-server connection registry, authentication
handshake, message dispatcher and liveness tracker.

The definitions below are shallow embeddings of the TypeScript sources:

* `ConnectionManager` (src/connection-manager.ts): the four maps
  `videoProducers`, `videoConsumers`, `alertConsumers`, `connectionMetadata`
  and the methods `registerProducer`, `registerConsumer`, `setMetadata`,
  `getMetadata`, `getConsumers`, `getProducer`, `removeConnection`.
* `MessageRouter` (src/message-router.ts, the token-authenticating variant
  whose `handleAuth` verifies the first-message token; and additionally the
  database-persisting `handleAlert` of the variant that stores alerts, kept
  here as `handleAlertPersist`).
* `MetricsTracker` (src/metrics.ts): `trackFrame`, `getFPS`, `removeStream`.
* The WebSocket upgrade data of src/index.ts: fresh connections start with
  `streamId = ""`, empty `produces`/`consumes` and `authenticated = false`.

Modelling conventions: JavaScript `Map`s are association lists with unique
keys (`alGet`/`alSet`/`alErase`), JavaScript `Set`s are insertion-ordered
duplicate-free lists (`setAdd`/`setDelete`), and connections
(`ServerWebSocket` objects) are natural numbers.  `ws.send` is modelled as
best effort: a send to a closed transport has no effect, matching the
caught-and-skipped error in the fan-out loops; statements about replies to
a sender assume the sender's transport is open.  `Date.now()` and the
random id suffix of `Math.random().toString(36).substring(2, 15)` are
passed to the handlers as explicit parameters.
-/

/-- Lookup in a JS `Map` modelled as an association list (`Map.get`). -/
def alGet {α β : Type} [DecidableEq α] : List (α × β) → α → Option β
  | [], _ => none
  | (k, v) :: rest, key => if k = key then some v else alGet rest key

/-- Update in a JS `Map` modelled as an association list (`Map.set`):
replaces the value at the key in place, or appends a new entry. -/
def alSet {α β : Type} [DecidableEq α] : List (α × β) → α → β → List (α × β)
  | [], key, val => [(key, val)]
  | (k, v) :: rest, key, val =>
    if k = key then (key, val) :: rest else (k, v) :: alSet rest key val

/-- Deletion from a JS `Map` modelled as an association list (`Map.delete`). -/
def alErase {α β : Type} [DecidableEq α] (l : List (α × β)) (key : α) : List (α × β) :=
  l.filter (fun p => p.1 ≠ key)

/-- `Set.add`: append the element if it is not already present (JS sets keep
insertion order and never hold duplicates). -/
def setAdd (l : List Nat) (x : Nat) : List Nat :=
  if x ∈ l then l else l ++ [x]

/-- `Set.delete`: remove the element, keeping the order of the others. -/
def setDelete (l : List Nat) (x : Nat) : List Nat :=
  l.filter (fun y => y ≠ x)

/-! ## Data model (src/types.ts, the authenticated variant) -/

/-- `ClientType`: `"mobile" | "dashboard" | "ml-service"`. -/
inductive ClientType where
  | mobile
  | dashboard
  | mlService
deriving DecidableEq

/-- `MessageType`: `"video-frame" | "alert"`. -/
inductive MT where
  | video
  | alert
deriving DecidableEq

/-- `ClientMetadata`: per-connection record.  The authentication fields
(`userId`, `sessionId`, `userEmail`, `userName`, `authenticated`) follow the
token-authenticating server variant; `connectedAt` is a millisecond clock
value. -/
structure ClientMetadata where
  userId : Option String
  sessionId : Option String
  userEmail : Option String
  userName : Option String
  streamId : String
  clientType : ClientType
  produces : List MT
  consumes : List MT
  connectedAt : Nat
  authenticated : Bool
deriving DecidableEq

/-! ## ConnectionManager (src/connection-manager.ts) -/

/-- The four maps of `class ConnectionManager`. -/
structure ConnectionManager where
  videoProducers : List (String × Nat)
  videoConsumers : List (String × List Nat)
  alertConsumers : List (String × List Nat)
  connectionMetadata : List (Nat × ClientMetadata)
deriving DecidableEq

/-- The constructor: all four maps empty. -/
def ConnectionManager.empty : ConnectionManager :=
  { videoProducers := [], videoConsumers := [], alertConsumers := [],
    connectionMetadata := [] }

/-- `registerProducer(streamId, ws, type)`: only `"video-frame"` producers
are tracked; an `"alert"` registration is a no-op. -/
def ConnectionManager.registerProducer (cm : ConnectionManager) (streamId : String)
    (ws : Nat) (t : MT) : ConnectionManager :=
  match t with
  | MT.video => { cm with videoProducers := alSet cm.videoProducers streamId ws }
  | MT.alert => cm

/-- `registerConsumer(streamId, ws, type)`: add the connection to the
consumer set of the stream for the given kind, creating the set if absent. -/
def ConnectionManager.registerConsumer (cm : ConnectionManager) (streamId : String)
    (ws : Nat) (t : MT) : ConnectionManager :=
  match t with
  | MT.video =>
    let s := setAdd ((alGet cm.videoConsumers streamId).getD []) ws
    { cm with videoConsumers := alSet cm.videoConsumers streamId s }
  | MT.alert =>
    let s := setAdd ((alGet cm.alertConsumers streamId).getD []) ws
    { cm with alertConsumers := alSet cm.alertConsumers streamId s }

/-- `setMetadata(ws, metadata)` on the manager's own map (the `ws.data`
mirror write is modelled at the world level). -/
def ConnectionManager.setMetadata (cm : ConnectionManager) (ws : Nat)
    (m : ClientMetadata) : ConnectionManager :=
  { cm with connectionMetadata := alSet cm.connectionMetadata ws m }

/-- `getMetadata(ws)`: the manager's map entry, falling back to `ws.data`
(passed in as `fallback`). -/
def ConnectionManager.getMetadata (cm : ConnectionManager) (fallback : Option ClientMetadata)
    (ws : Nat) : Option ClientMetadata :=
  match alGet cm.connectionMetadata ws with
  | some m => some m
  | none => fallback

/-- `getConsumers(streamId, type)`: snapshot of the consumer set, empty if
none registered. -/
def ConnectionManager.getConsumers (cm : ConnectionManager) (streamId : String)
    (t : MT) : List Nat :=
  match t with
  | MT.video => (alGet cm.videoConsumers streamId).getD []
  | MT.alert => (alGet cm.alertConsumers streamId).getD []

/-- `getProducer(streamId, type)`: only video producers are tracked. -/
def ConnectionManager.getProducer (cm : ConnectionManager) (streamId : String)
    (t : MT) : Option Nat :=
  match t with
  | MT.video => alGet cm.videoProducers streamId
  | MT.alert => none

/-- The producer-slot removal step of `removeConnection`: clear
`videoProducers[streamId]` only when the metadata lists `"video-frame"`
among `produces` and the slot currently holds this exact connection. -/
def removeProducerStep (cm : ConnectionManager) (m : ClientMetadata) (ws : Nat) :
    ConnectionManager :=
  if MT.video ∈ m.produces ∧ alGet cm.videoProducers m.streamId = some ws then
    { cm with videoProducers := alErase cm.videoProducers m.streamId }
  else cm

/-- Delete a connection from one stream's consumer set, pruning the map
entry when the set becomes empty (the `consumers.delete(ws)` /
`if (consumers.size === 0) delete` pattern). -/
def removeFromSet (map : List (String × List Nat)) (streamId : String) (ws : Nat) :
    List (String × List Nat) :=
  match alGet map streamId with
  | none => map
  | some s =>
    let s' := setDelete s ws
    if s'.length = 0 then alErase map streamId else alSet map streamId s'

/-- The video-consumer removal step of `removeConnection`. -/
def removeVideoConsumerStep (cm : ConnectionManager) (m : ClientMetadata) (ws : Nat) :
    ConnectionManager :=
  if MT.video ∈ m.consumes then
    { cm with videoConsumers := removeFromSet cm.videoConsumers m.streamId ws }
  else cm

/-- The alert-consumer removal step of `removeConnection`. -/
def removeAlertConsumerStep (cm : ConnectionManager) (m : ClientMetadata) (ws : Nat) :
    ConnectionManager :=
  if MT.alert ∈ m.consumes then
    { cm with alertConsumers := removeFromSet cm.alertConsumers m.streamId ws }
  else cm

/-- `removeConnection(ws)`: look up the stored metadata (or `ws.data`); if
absent, no-op returning `undefined`.  Otherwise remove the connection from
the producer slot (guarded), from the consumer sets named by the metadata's
`consumes`, delete the metadata record and return the metadata snapshot. -/
def ConnectionManager.removeConnection (cm : ConnectionManager)
    (fallback : Option ClientMetadata) (ws : Nat) :
    ConnectionManager × Option ClientMetadata :=
  match cm.getMetadata fallback ws with
  | none => (cm, none)
  | some m =>
    let cm1 := removeProducerStep cm m ws
    let cm2 := removeVideoConsumerStep cm1 m ws
    let cm3 := removeAlertConsumerStep cm2 m ws
    ({ cm3 with connectionMetadata := alErase cm3.connectionMetadata ws }, some m)

/-- The video-consumer list of a stream, as `getConsumers` returns it. -/
def vListOf (cm : ConnectionManager) (s : String) : List Nat :=
  (alGet cm.videoConsumers s).getD []

/-- The alert-consumer list of a stream, as `getConsumers` returns it. -/
def aListOf (cm : ConnectionManager) (s : String) : List Nat :=
  (alGet cm.alertConsumers s).getD []

/-- Well-formedness that `ConnectionManager` maintains operationally: every
consumer set (a JS `Set`) is duplicate-free. -/
def WFConsumers (cm : ConnectionManager) : Prop :=
  (∀ p ∈ cm.videoConsumers, List.Nodup p.2) ∧ (∀ p ∈ cm.alertConsumers, List.Nodup p.2)

/-- Metadata of a mobile producer that registered for stream `"s1"`
producing video. -/
def mdBase : ClientMetadata :=
  { userId := some "u", sessionId := some "sess", userEmail := none, userName := none,
    streamId := "s1", clientType := ClientType.mobile, produces := [MT.video],
    consumes := [], connectedAt := 0, authenticated := true }

/-- The same connection's metadata after a second `register` for `"s2"`. -/
def mdS2 : ClientMetadata := { mdBase with streamId := "s2" }

/-- Registry state after connection 0 registers as video producer for
`"s1"` and then again for `"s2"` (the second `register` overwrites the
stored metadata but leaves the `"s1"` producer slot in place). -/
def cmTwoRegs : ConnectionManager :=
  (((ConnectionManager.empty.setMetadata 0 mdBase).registerProducer "s1" 0
      MT.video).setMetadata 0 mdS2).registerProducer "s2" 0 MT.video

/-! ## MetricsTracker (src/metrics.ts) -/

/-- One entry of the tracker's per-stream map. -/
structure StreamMetrics where
  frameCount : Nat
  lastFrameTime : Nat
  startTime : Nat
  fps : Nat
  lastFpsUpdate : Nat
deriving DecidableEq

/-- `Math.round(num / den)` for nonnegative numerator and positive
denominator (round half up). -/
def mathRound (num den : Nat) : Nat := (2 * num + den) / (2 * den)

/-- `trackFrame(streamId)` at clock value `now`: create the entry lazily,
increment the frame counter, and once at least 1000 ms have elapsed since
the last rate computation set `fps` to the rounded frames-per-second and
reset the window. -/
def trackFrame (ms : List (String × StreamMetrics)) (sid : String) (now : Nat) :
    List (String × StreamMetrics) :=
  let m0 := (alGet ms sid).getD
    { frameCount := 0, lastFrameTime := now, startTime := now, fps := 0, lastFpsUpdate := now }
  let m1 := { m0 with frameCount := m0.frameCount + 1 }
  let m2 := if now - m1.lastFpsUpdate ≥ 1000 then
      { m1 with fps := mathRound (m1.frameCount * 1000) (now - m1.lastFpsUpdate),
                lastFpsUpdate := now, frameCount := 0 }
    else m1
  let m3 := { m2 with lastFrameTime := now }
  alSet ms sid m3

/-- `getFPS(streamId)`: the last computed rate, or 0 when no entry. -/
def getFPS (ms : List (String × StreamMetrics)) (sid : String) : Nat :=
  ((alGet ms sid).map StreamMetrics.fps).getD 0

/-- `removeStream(streamId)`. -/
def removeStream (ms : List (String × StreamMetrics)) (sid : String) :
    List (String × StreamMetrics) :=
  alErase ms sid

/-! ## Messages (src/types.ts) and the router world -/

/-- `RegisterMessage`: `streamId` is the empty string when the client did
not supply one (both `undefined` and `""` are falsy in the
`streamId || generated` expression). -/
structure RegisterMsg where
  streamId : String
  clientType : ClientType
  produces : List MT
  consumes : List MT
deriving DecidableEq

/-- `SubscribeMessage`. -/
structure SubscribeMsg where
  streamId : String
  clientType : ClientType
  consumes : List MT
deriving DecidableEq

/-- `VideoFrameMessage` (the frame payload is opaque). -/
structure VideoFrameMsg where
  streamId : String
  data : String
  timestamp : Nat
deriving DecidableEq

/-- `AlertMessage` (the metadata object is opaque). -/
structure AlertMsg where
  streamId : String
  severity : String
  message : String
  metadata : Option String
  timestamp : Nat
deriving DecidableEq

/-- Inbound message union, discriminated by the `type` field; `unknown`
covers every unrecognised tag. -/
inductive WSMessage where
  | auth (token : String)
  | register (m : RegisterMsg)
  | subscribe (m : SubscribeMsg)
  | videoFrame (m : VideoFrameMsg)
  | alertM (m : AlertMsg)
  | unknown (tag : String)
deriving DecidableEq

/-- Outbound, server-originated messages. -/
inductive OutMsg where
  | errorMsg (code : String) (msg : String) (timestamp : Nat)
  | successMsg (msg : String) (timestamp : Nat)
  | statusMsg (streamId : String) (status : String) (timestamp : Nat)
  | videoFrameOut (m : VideoFrameMsg)
  | alertOut (m : AlertMsg)
deriving DecidableEq

/-- The session-verifier's successful result (the external collaborator
`verifySessionToken`). -/
structure SessionInfo where
  userId : String
  sessionId : String
  email : Option String
  name : Option String
deriving DecidableEq

/-- The observable world of the server: the registry singleton, each
connection's `ws.data`, the set of closed transports, the ordered log of
successful sends, the `ws.close` calls, the metrics tracker's map and the
alerts handed to the database. -/
structure World where
  cm : ConnectionManager
  wsData : List (Nat × ClientMetadata)
  closed : List Nat
  sent : List (Nat × OutMsg)
  closes : List (Nat × Nat)
  metrics : List (String × StreamMetrics)
  dbAlerts : List AlertMsg
deriving DecidableEq

/-- The `ws.data` installed at WebSocket upgrade time (src/index.ts):
unauthenticated, no stream, empty produce/consume sets. -/
def upgradeData (ct : ClientType) (now : Nat) : ClientMetadata :=
  { userId := none, sessionId := none, userEmail := none, userName := none,
    streamId := "", clientType := ct, produces := [], consumes := [],
    connectedAt := now, authenticated := false }

/-- `ws.send`, best effort: a send to a closed transport raises and is
dropped; a successful send is appended to the log. -/
def trySend (w : World) (target : Nat) (msg : OutMsg) : World :=
  if target ∈ w.closed then w else { w with sent := w.sent ++ [(target, msg)] }

/-- `sendError(ws, code, message)`. -/
def sendError (w : World) (ws : Nat) (code msg : String) (now : Nat) : World :=
  trySend w ws (OutMsg.errorMsg code msg now)

/-- `sendSuccess(ws, message)`. -/
def sendSuccess (w : World) (ws : Nat) (msg : String) (now : Nat) : World :=
  trySend w ws (OutMsg.successMsg msg now)

/-- The `for (const consumer of ...) { try { consumer.send(...) } catch {} }`
loop shared by the fan-out paths. -/
def fanOut (w : World) (targets : List Nat) (msg : OutMsg) : World :=
  targets.foldl (fun w2 c => trySend w2 c msg) w

/-- `broadcastStatus(streamId, status)`: push a status event to the
concatenation of the stream's video and alert consumer snapshots. -/
def broadcastStatus (w : World) (streamId status : String) (now : Nat) : World :=
  let allConsumers := w.cm.getConsumers streamId MT.video ++
    w.cm.getConsumers streamId MT.alert
  fanOut w allConsumers (OutMsg.statusMsg streamId status now)

/-- The `ws.data` update `handleAuth` performs on a verified session:
identity copied in, `authenticated` set to true. -/
def authSuccessData (d : ClientMetadata) (sess : SessionInfo) : ClientMetadata :=
  { userId := some sess.userId, sessionId := some sess.sessionId,
    userEmail := sess.email, userName := sess.name, streamId := d.streamId,
    clientType := d.clientType, produces := d.produces, consumes := d.consumes,
    connectedAt := d.connectedAt, authenticated := true }

/-- `handleAuth`: reject re-authentication, close with 1008 on a rejected
token, and on success copy the session identity into `ws.data` and set
`authenticated = true`. -/
def handleAuth (w : World) (ws : Nat) (token : String) (now : Nat)
    (verify : String → Option SessionInfo) : World :=
  match alGet w.wsData ws with
  | none => w
  | some d =>
    if d.authenticated then
      sendError w ws "ALREADY_AUTHENTICATED" "Connection already authenticated" now
    else
      match verify token with
      | none =>
        let w1 := sendError w ws "AUTH_FAILED" "Invalid or expired authentication token" now
        { w1 with closes := w1.closes ++ [(ws, 1008)], closed := w1.closed ++ [ws] }
      | some sess =>
        sendSuccess { w with wsData := alSet w.wsData ws (authSuccessData d sess) } ws
          "Authentication successful" now

/-- The `stream_${Date.now()}_${randomSuffix}` template of `handleRegister`. -/
def genStreamId (now : Nat) (suffix : String) : String :=
  "stream_" ++ toString now ++ "_" ++ suffix

/-- The metadata record `handleRegister` builds, preserving the connection's
auth fields. -/
def registerMetadata (d : ClientMetadata) (msg : RegisterMsg) (finalStreamId : String) :
    ClientMetadata :=
  { userId := d.userId, sessionId := d.sessionId, userEmail := d.userEmail,
    userName := d.userName, streamId := finalStreamId, clientType := msg.clientType,
    produces := msg.produces, consumes := msg.consumes, connectedAt := d.connectedAt,
    authenticated := d.authenticated }

/-- `handleRegister`: authentication gate, stream-id generation when the
client supplied none, metadata store, producer/consumer registration,
success reply, and a `streaming` status broadcast for mobile video
producers. -/
def handleRegister (w : World) (ws : Nat) (msg : RegisterMsg) (now : Nat)
    (suffix : String) : World :=
  match alGet w.wsData ws with
  | none => w
  | some d =>
    if !d.authenticated then
      sendError w ws "AUTH_REQUIRED" "Must authenticate first. Send auth message with token." now
    else if d.userId = none then
      sendError w ws "AUTH_REQUIRED" "Connection not authenticated" now
    else
      let finalStreamId := if msg.streamId = "" then genStreamId now suffix else msg.streamId
      let meta := registerMetadata d msg finalStreamId
      let w1 := { w with cm := w.cm.setMetadata ws meta, wsData := alSet w.wsData ws meta }
      let cmProd := msg.produces.foldl (fun cm2 t => cm2.registerProducer finalStreamId ws t) w1.cm
      let w2 := { w1 with cm := cmProd }
      let cmCons := msg.consumes.foldl (fun cm2 t => cm2.registerConsumer finalStreamId ws t) w2.cm
      let w3 := { w2 with cm := cmCons }
      let w4 := sendSuccess w3 ws ("Registration successful. Stream ID: " ++ finalStreamId) now
      if msg.clientType = ClientType.mobile ∧ MT.video ∈ msg.produces then
        broadcastStatus w4 finalStreamId "streaming" now
      else w4

/-- The metadata record `handleSubscribe` builds (empty produce set). -/
def subscribeMetadata (d : ClientMetadata) (msg : SubscribeMsg) : ClientMetadata :=
  { userId := d.userId, sessionId := d.sessionId, userEmail := d.userEmail,
    userName := d.userName, streamId := msg.streamId, clientType := msg.clientType,
    produces := [], consumes := msg.consumes, connectedAt := d.connectedAt,
    authenticated := d.authenticated }

/-- `handleSubscribe`: authentication gate, metadata store and consumer
registration under the client-supplied stream id. -/
def handleSubscribe (w : World) (ws : Nat) (msg : SubscribeMsg) (now : Nat) : World :=
  match alGet w.wsData ws with
  | none => w
  | some d =>
    if !d.authenticated then
      sendError w ws "AUTH_REQUIRED" "Must authenticate first. Send auth message with token." now
    else if d.userId = none then
      sendError w ws "AUTH_REQUIRED" "Connection not authenticated" now
    else
      let meta := subscribeMetadata d msg
      let w1 := { w with cm := w.cm.setMetadata ws meta, wsData := alSet w.wsData ws meta }
      let cmCons := msg.consumes.foldl (fun cm2 t => cm2.registerConsumer msg.streamId ws t) w1.cm
      let w2 := { w1 with cm := cmCons }
      sendSuccess w2 ws "Subscription successful" now

/-- `handleVideoFrame`: authentication gate, tracker update, then fan-out
to the stream's video consumers with per-consumer error isolation. -/
def handleVideoFrame (w : World) (ws : Nat) (msg : VideoFrameMsg) (now : Nat) : World :=
  match alGet w.wsData ws with
  | none => w
  | some d =>
    if !d.authenticated then
      sendError w ws "AUTH_REQUIRED" "Must authenticate first" now
    else
      let w1 := { w with metrics := trackFrame w.metrics msg.streamId now }
      let consumers := w1.cm.getConsumers msg.streamId MT.video
      fanOut w1 consumers (OutMsg.videoFrameOut msg)

/-- `handleAlert` (in-memory variant): authentication gate, then fan-out to
the stream's alert consumers, returning early when there are none. -/
def handleAlert (w : World) (ws : Nat) (msg : AlertMsg) (now : Nat) : World :=
  match alGet w.wsData ws with
  | none => w
  | some d =>
    if !d.authenticated then
      sendError w ws "AUTH_REQUIRED" "Must authenticate first" now
    else
      let consumers := w.cm.getConsumers msg.streamId MT.alert
      if consumers.length = 0 then w
      else fanOut w consumers (OutMsg.alertOut msg)

/-- `handleAlert` of the database-persisting router variant: the
`db.insert` is wrapped in try/catch and the broadcast continues either way;
`persistOk` tells whether the insert succeeded (on failure the alert is
simply not recorded). -/
def handleAlertPersist (w : World) (ws : Nat) (msg : AlertMsg) (persistOk : Bool)
    (now : Nat) : World :=
  let w1 := if persistOk then { w with dbAlerts := w.dbAlerts ++ [msg] } else w
  let consumers := w1.cm.getConsumers msg.streamId MT.alert
  if consumers.length = 0 then w1
  else fanOut w1 consumers (OutMsg.alertOut msg)

/-- `routeMessage`: dispatch on the declared message kind. -/
def routeMessage (w : World) (ws : Nat) (msg : WSMessage) (now : Nat)
    (verify : String → Option SessionInfo) (suffix : String) : World :=
  match msg with
  | WSMessage.auth t => handleAuth w ws t now verify
  | WSMessage.register m => handleRegister w ws m now suffix
  | WSMessage.subscribe m => handleSubscribe w ws m now
  | WSMessage.videoFrame m => handleVideoFrame w ws m now
  | WSMessage.alertM m => handleAlert w ws m now
  | WSMessage.unknown tag =>
    sendError w ws "UNKNOWN_MESSAGE_TYPE" ("Unknown message type: " ++ tag) now

/-- `handleDisconnect`: remove the connection from the registry; when the
removed metadata produced video, drop the tracker entry; when it was a
mobile video producer, broadcast `offline`. -/
def handleDisconnect (w : World) (ws : Nat) (now : Nat) : World :=
  let r := w.cm.removeConnection (alGet w.wsData ws) ws
  let w1 := { w with cm := r.1 }
  match r.2 with
  | none => w1
  | some m =>
    let w2 := if MT.video ∈ m.produces then
        { w1 with metrics := removeStream w1.metrics m.streamId }
      else w1
    if m.clientType = ClientType.mobile ∧ MT.video ∈ m.produces then
      broadcastStatus w2 m.streamId "offline" now
    else w2

/-! ## Registry-level operation traces (for the consumer-set invariant) -/

/-- The registry state a trace acts on: the manager together with each
connection's `ws.data` mirror. -/
structure RState where
  cm : ConnectionManager
  wsData : List (Nat × ClientMetadata)
deriving DecidableEq

/-- One registry-level operation, as the router performs it: `register` is
`setMetadata` followed by producer and consumer registration, `subscribe`
is `setMetadata` (with an empty produce set) followed by consumer
registration, `disconnect` is `removeConnection`. -/
inductive RegOp where
  | register (ws : Nat) (m : ClientMetadata)
  | subscribe (ws : Nat) (m : ClientMetadata)
  | disconnect (ws : Nat)
deriving DecidableEq

/-- Apply one operation. -/
def applyOp (st : RState) : RegOp → RState
  | RegOp.register ws m =>
    let cm1 := st.cm.setMetadata ws m
    let cm2 := m.produces.foldl (fun cm t => cm.registerProducer m.streamId ws t) cm1
    let cm3 := m.consumes.foldl (fun cm t => cm.registerConsumer m.streamId ws t) cm2
    { cm := cm3, wsData := alSet st.wsData ws m }
  | RegOp.subscribe ws m =>
    let m1 := { m with produces := ([] : List MT) }
    let cm1 := st.cm.setMetadata ws m1
    let cm2 := m.consumes.foldl (fun cm t => cm.registerConsumer m.streamId ws t) cm1
    { cm := cm2, wsData := alSet st.wsData ws m1 }
  | RegOp.disconnect ws =>
    { st with cm := (st.cm.removeConnection (alGet st.wsData ws) ws).1 }

/-- Apply a trace left to right. -/
def applyOps (ops : List RegOp) (st : RState) : RState := ops.foldl applyOp st

/-- The server's initial state: empty registry, no connections. -/
def initialRState : RState := { cm := ConnectionManager.empty, wsData := [] }

/-- Whether an operation is a register/subscribe whose subject is `c`. -/
def opIsRegSubOf : RegOp → Nat → Bool
  | RegOp.register ws _, c => ws == c
  | RegOp.subscribe ws _, c => ws == c
  | RegOp.disconnect _, _ => false

/-- How many register/subscribe operations about `c` a trace contains. -/
def regsubCount (c : Nat) (ops : List RegOp) : Nat :=
  ops.countP (fun op => opIsRegSubOf op c)

/-- Consumer metadata for stream `"s1"` consuming alerts only. -/
def mdSub1 : ClientMetadata :=
  { mdBase with produces := [], consumes := [MT.alert] }

/-- The same connection's metadata re-subscribed to `"s2"`. -/
def mdSub2 : ClientMetadata := { mdSub1 with streamId := "s2" }

/-- A trace in which connection 0 subscribes to `"s1"`, then subscribes to
`"s2"` (overwriting its metadata), then disconnects. -/
def opsStale : List RegOp :=
  [RegOp.subscribe 0 mdSub1, RegOp.subscribe 0 mdSub2, RegOp.disconnect 0]

/-- The successful sends a fan-out loop produces: one entry per open
target, in order; closed targets are skipped. -/
def deliveredTo (l : List Nat) (closed : List Nat) (msg : OutMsg) : List (Nat × OutMsg) :=
  match l with
  | [] => []
  | c :: rest =>
    if c ∈ closed then deliveredTo rest closed msg
    else (c, msg) :: deliveredTo rest closed msg

/-- Which inbound message kinds are client operations other than `auth`. -/
def isNonAuthClientMsg : WSMessage → Prop
  | WSMessage.register _ => True
  | WSMessage.subscribe _ => True
  | WSMessage.videoFrame _ => True
  | WSMessage.alertM _ => True
  | WSMessage.auth _ => False
  | WSMessage.unknown _ => False

/-- A world with one freshly upgraded (unauthenticated) mobile connection. -/
def wUnauth : World :=
  { cm := ConnectionManager.empty, wsData := [(0, upgradeData ClientType.mobile 0)],
    closed := [], sent := [], closes := [], metrics := [], dbAlerts := [] }

/-- A concrete video frame. -/
def vfDemo : VideoFrameMsg := { streamId := "s1", data := "frame", timestamp := 5 }

/-- A concrete session returned by the verifier. -/
def sessDemo : SessionInfo :=
  { userId := "u1", sessionId := "sid", email := none, name := none }

/-- A verifier accepting exactly the token `"good"`. -/
def verifyDemo : String → Option SessionInfo :=
  fun t => if t = "good" then some sessDemo else none

/-- A world with three registered consumers 1, 2, 3 for stream `"s1"` (both
kinds) of which consumer 2's transport is already closed; connection 0 is an
authenticated sender. -/
def wFan : World :=
  { cm := { videoProducers := [], videoConsumers := [("s1", [1, 2, 3])],
            alertConsumers := [("s1", [1, 2, 3])], connectionMetadata := [] },
    wsData := [(0, mdBase)], closed := [2], sent := [], closes := [], metrics := [],
    dbAlerts := [] }

/-- A concrete alert. -/
def amDemo : AlertMsg :=
  { streamId := "s1", severity := "high", message := "person detected", metadata := none,
    timestamp := 6 }

/-- A world where connection 5 consumes both video and alerts of `"s"`. -/
def wBoth : World :=
  { cm := { videoProducers := [], videoConsumers := [("s", [5])],
            alertConsumers := [("s", [5])], connectionMetadata := [] },
    wsData := [], closed := [], sent := [], closes := [], metrics := [], dbAlerts := [] }

/-- A world where connection 0 is the registered mobile video producer for
`"s1"`, connection 1 consumes both kinds, and the tracker has an entry. -/
def wProd : World :=
  { cm := { videoProducers := [("s1", 0)], videoConsumers := [("s1", [1])],
            alertConsumers := [("s1", [1])], connectionMetadata := [(0, mdBase)] },
    wsData := [(0, mdBase)], closed := [], sent := [], closes := [],
    metrics := [("s1", { frameCount := 3, lastFrameTime := 0, startTime := 0, fps := 24,
                         lastFpsUpdate := 0 })],
    dbAlerts := [] }

/-- A register message with no stream id (empty string), as a mobile video
producer consuming alerts. -/
def regDemo : RegisterMsg :=
  { streamId := "", clientType := ClientType.mobile, produces := [MT.video],
    consumes := [MT.alert] }

/-- The subject connection of an operation. -/
def opSubject : RegOp → Nat
  | RegOp.register ws _ => ws
  | RegOp.subscribe ws _ => ws
  | RegOp.disconnect ws => ws

/-- Connection `c` is fully absent from the registry: no metadata record
and no consumer-set membership. -/
def GoneIn (st : RState) (c : Nat) : Prop :=
  alGet st.cm.connectionMetadata c = none ∧
  ∀ s, c ∉ st.cm.getConsumers s MT.video ∧ c ∉ st.cm.getConsumers s MT.alert

/-- Connection `c` is registered with metadata `m`: the metadata record is
`m` and its consumer-set memberships are exactly the ones `m` describes. -/
def RegisteredIn (st : RState) (c : Nat) (m : ClientMetadata) : Prop :=
  alGet st.cm.connectionMetadata c = some m ∧
  (∀ s, c ∈ st.cm.getConsumers s MT.video ↔ (s = m.streamId ∧ MT.video ∈ m.consumes)) ∧
  (∀ s, c ∈ st.cm.getConsumers s MT.alert ↔ (s = m.streamId ∧ MT.alert ∈ m.consumes))

/-- Either absent or registered with some metadata. -/
def GoneOrReg (st : RState) (c : Nat) : Prop :=
  GoneIn st c ∨ ∃ m, RegisteredIn st c m

/-! ## Lemmas and theorems -/

@[simp]
theorem alGet_nil {α β : Type} [DecidableEq α] (key : α) :
    alGet ([] : List (α × β)) key = none := rfl

theorem alGet_alSet {α β : Type} [DecidableEq α] (l : List (α × β)) (k k' : α) (v : β) :
    alGet (alSet l k v) k' = if k = k' then some v else alGet l k' := by
  induction l with
  | nil => simp [alSet, alGet]
  | cons p rest ih =>
    obtain ⟨pk, pv⟩ := p
    by_cases hpk : pk = k
    · subst hpk
      by_cases hk' : pk = k'
      · simp [alSet, alGet, hk']
      · simp [alSet, alGet, hk']
    · simp only [alSet, if_neg hpk, alGet]
      by_cases hpk' : pk = k'
      · subst hpk'
        have hne : k ≠ pk := fun h => hpk h.symm
        simp [alGet, hne]
      · simp [alGet, hpk', ih]

@[simp]
theorem alGet_alSet_self {α β : Type} [DecidableEq α] (l : List (α × β)) (k : α) (v : β) :
    alGet (alSet l k v) k = some v := by
  simp [alGet_alSet]

theorem alGet_alSet_ne {α β : Type} [DecidableEq α] (l : List (α × β)) {k k' : α} (v : β)
    (h : k ≠ k') : alGet (alSet l k v) k' = alGet l k' := by
  simp [alGet_alSet, h]

theorem alGet_alErase {α β : Type} [DecidableEq α] (l : List (α × β)) (k k' : α) :
    alGet (alErase l k) k' = if k = k' then none else alGet l k' := by
  induction l with
  | nil => simp [alErase, alGet]
  | cons p rest ih =>
    obtain ⟨pk, pv⟩ := p
    simp only [alErase, List.filter_cons] at ih ⊢
    by_cases hpk : pk = k
    · subst hpk
      by_cases hk' : pk = k'
      · subst hk'
        simpa using ih
      · simpa [alGet, hk'] using ih
    · have hd : (decide (¬ (pk, pv).1 = k)) = true := by
        simp [hpk]
      rw [hd]
      by_cases hk' : pk = k'
      · subst hk'
        have hne : ¬ k = pk := fun h => hpk h.symm
        simp [alGet, hne]
      · simpa [alGet, hk'] using ih

@[simp]
theorem alGet_alErase_self {α β : Type} [DecidableEq α] (l : List (α × β)) (k : α) :
    alGet (alErase l k) k = none := by
  simp [alGet_alErase]

theorem alGet_alErase_ne {α β : Type} [DecidableEq α] (l : List (α × β)) {k k' : α}
    (h : k ≠ k') : alGet (alErase l k) k' = alGet l k' := by
  simp [alGet_alErase, h]

theorem alSet_alSet_self {α β : Type} [DecidableEq α] (l : List (α × β)) (k : α) (v w : β) :
    alSet (alSet l k v) k w = alSet l k w := by
  induction l with
  | nil => simp [alSet]
  | cons p rest ih =>
    obtain ⟨pk, pv⟩ := p
    by_cases hpk : pk = k
    · subst hpk
      simp [alSet]
    · simp [alSet, hpk, ih]

@[simp]
theorem mem_setAdd (l : List Nat) (x y : Nat) :
    y ∈ setAdd l x ↔ y ∈ l ∨ y = x := by
  unfold setAdd
  by_cases hx : x ∈ l
  · simp only [if_pos hx]
    constructor
    · exact fun h => Or.inl h
    · rintro (h | rfl)
      · exact h
      · exact hx
  · simp [if_neg hx]

@[simp]
theorem mem_setDelete (l : List Nat) (x y : Nat) :
    y ∈ setDelete l x ↔ y ∈ l ∧ y ≠ x := by
  simp [setDelete]

theorem setAdd_self_of_mem (l : List Nat) {x : Nat} (h : x ∈ l) : setAdd l x = l := by
  simp [setAdd, h]

theorem count_setAdd_self (l : List Nat) (x : Nat) (h : l.Nodup) :
    (setAdd l x).count x = 1 := by
  unfold setAdd
  by_cases hx : x ∈ l
  · rw [if_pos hx]
    exact List.count_eq_one_of_mem h hx
  · rw [if_neg hx]
    rw [List.count_append]
    simp [List.count_eq_zero_of_not_mem hx]

theorem getConsumers_video (cm : ConnectionManager) (s : String) :
    cm.getConsumers s MT.video = vListOf cm s := rfl

theorem getConsumers_alert (cm : ConnectionManager) (s : String) :
    cm.getConsumers s MT.alert = aListOf cm s := rfl

/-! ## Structural lemmas about the ConnectionManager operations -/

theorem alGet_mem {α β : Type} [DecidableEq α] {l : List (α × β)} {k : α} {v : β}
    (h : alGet l k = some v) : (k, v) ∈ l := by
  induction l with
  | nil => simp [alGet] at h
  | cons p rest ih =>
    obtain ⟨pk, pv⟩ := p
    simp only [alGet] at h
    by_cases hpk : pk = k
    · subst hpk
      simp at h
      subst h
      exact List.mem_cons_self _ _
    · simp [hpk] at h
      exact List.mem_cons_of_mem _ (ih h)

theorem registerProducer_videoConsumers (cm : ConnectionManager) (s : String) (c : Nat)
    (t : MT) : (cm.registerProducer s c t).videoConsumers = cm.videoConsumers := by
  cases t <;> rfl

theorem registerProducer_alertConsumers (cm : ConnectionManager) (s : String) (c : Nat)
    (t : MT) : (cm.registerProducer s c t).alertConsumers = cm.alertConsumers := by
  cases t <;> rfl

theorem registerProducer_connectionMetadata (cm : ConnectionManager) (s : String) (c : Nat)
    (t : MT) : (cm.registerProducer s c t).connectionMetadata = cm.connectionMetadata := by
  cases t <;> rfl

theorem registerConsumer_videoProducers (cm : ConnectionManager) (s : String) (c : Nat)
    (t : MT) : (cm.registerConsumer s c t).videoProducers = cm.videoProducers := by
  cases t <;> rfl

theorem registerConsumer_connectionMetadata (cm : ConnectionManager) (s : String) (c : Nat)
    (t : MT) : (cm.registerConsumer s c t).connectionMetadata = cm.connectionMetadata := by
  cases t <;> rfl

theorem setMetadata_videoProducers (cm : ConnectionManager) (c : Nat) (m : ClientMetadata) :
    (cm.setMetadata c m).videoProducers = cm.videoProducers := rfl

theorem setMetadata_vListOf (cm : ConnectionManager) (c : Nat) (m : ClientMetadata)
    (s : String) : vListOf (cm.setMetadata c m) s = vListOf cm s := rfl

theorem setMetadata_aListOf (cm : ConnectionManager) (c : Nat) (m : ClientMetadata)
    (s : String) : aListOf (cm.setMetadata c m) s = aListOf cm s := rfl

theorem vListOf_registerProducer (cm : ConnectionManager) (s s' : String) (c : Nat)
    (t : MT) : vListOf (cm.registerProducer s c t) s' = vListOf cm s' := by
  unfold vListOf
  rw [registerProducer_videoConsumers]

theorem aListOf_registerProducer (cm : ConnectionManager) (s s' : String) (c : Nat)
    (t : MT) : aListOf (cm.registerProducer s c t) s' = aListOf cm s' := by
  unfold aListOf
  rw [registerProducer_alertConsumers]

theorem vListOf_registerConsumer_video (cm : ConnectionManager) (s s' : String) (c : Nat) :
    vListOf (cm.registerConsumer s c MT.video) s' =
      if s = s' then setAdd (vListOf cm s) c else vListOf cm s' := by
  unfold vListOf ConnectionManager.registerConsumer
  simp only [alGet_alSet]
  by_cases h : s = s'
  · subst h
    simp
  · simp [h]

theorem aListOf_registerConsumer_video (cm : ConnectionManager) (s s' : String) (c : Nat) :
    aListOf (cm.registerConsumer s c MT.video) s' = aListOf cm s' := rfl

theorem aListOf_registerConsumer_alert (cm : ConnectionManager) (s s' : String) (c : Nat) :
    aListOf (cm.registerConsumer s c MT.alert) s' =
      if s = s' then setAdd (aListOf cm s) c else aListOf cm s' := by
  unfold aListOf ConnectionManager.registerConsumer
  simp only [alGet_alSet]
  by_cases h : s = s'
  · subst h
    simp
  · simp [h]

theorem vListOf_registerConsumer_alert (cm : ConnectionManager) (s s' : String) (c : Nat) :
    vListOf (cm.registerConsumer s c MT.alert) s' = vListOf cm s' := rfl

theorem mem_vListOf_registerConsumer (cm : ConnectionManager) (s s' : String) (c c' : Nat)
    (t : MT) :
    (c' ∈ vListOf (cm.registerConsumer s c t) s' ↔
      (c' ∈ vListOf cm s' ∨ (t = MT.video ∧ c' = c ∧ s = s'))) := by
  cases t
  · rw [vListOf_registerConsumer_video]
    by_cases h : s = s'
    · subst h
      simp
    · simp [h]
  · rw [vListOf_registerConsumer_alert]
    simp

theorem mem_aListOf_registerConsumer (cm : ConnectionManager) (s s' : String) (c c' : Nat)
    (t : MT) :
    (c' ∈ aListOf (cm.registerConsumer s c t) s' ↔
      (c' ∈ aListOf cm s' ∨ (t = MT.alert ∧ c' = c ∧ s = s'))) := by
  cases t
  · rw [aListOf_registerConsumer_video]
    simp
  · rw [aListOf_registerConsumer_alert]
    by_cases h : s = s'
    · subst h
      simp
    · simp [h]

theorem mem_removeFromSet (map : List (String × List Nat)) (sid : String) (ws : Nat)
    (c' : Nat) (s : String) :
    (c' ∈ (alGet (removeFromSet map sid ws) s).getD [] ↔
      (c' ∈ (alGet map s).getD [] ∧ ¬(c' = ws ∧ s = sid))) := by
  unfold removeFromSet
  by_cases hs : s = sid
  · subst hs
    cases h : alGet map s with
    | none => simp [h]
    | some s0 =>
      simp only [h]
      by_cases hlen : (setDelete s0 ws).length = 0
      · rw [if_pos hlen]
        have hnil : setDelete s0 ws = [] := List.length_eq_zero.mp hlen
        simp only [alGet_alErase_self, Option.getD_none, List.not_mem_nil, false_iff]
        intro hc
        have hmem : c' ∈ setDelete s0 ws := by
          rw [mem_setDelete]
          refine ⟨by simpa [h] using hc.1, fun he => hc.2 ⟨he, trivial⟩⟩
        rw [hnil] at hmem
        simp at hmem
      · rw [if_neg hlen]
        simp [alGet_alSet_self, h, mem_setDelete]
  · have hne : sid ≠ s := fun h => hs h.symm
    cases h : alGet map sid with
    | none => simp [hs]
    | some s0 =>
      simp only
      by_cases hlen : (setDelete s0 ws).length = 0
      · rw [if_pos hlen]
        rw [alGet_alErase_ne _ hne]
        simp [hs]
      · rw [if_neg hlen]
        rw [alGet_alSet_ne _ _ hne]
        simp [hs]

theorem removeConnection_of_meta_none (cm : ConnectionManager)
    (fb : Option ClientMetadata) (ws : Nat) (h : cm.getMetadata fb ws = none) :
    cm.removeConnection fb ws = (cm, none) := by
  unfold ConnectionManager.removeConnection
  rw [h]

theorem meta_removeConnection (cm : ConnectionManager) (fb : Option ClientMetadata)
    (ws w' : Nat) :
    alGet (cm.removeConnection fb ws).1.connectionMetadata w' =
      if w' = ws then none else alGet cm.connectionMetadata w' := by
  unfold ConnectionManager.removeConnection
  cases h : cm.getMetadata fb ws with
  | none =>
    simp only
    by_cases hw : w' = ws
    · subst hw
      unfold ConnectionManager.getMetadata at h
      cases hg : alGet cm.connectionMetadata w' with
      | none => simp [hg]
      | some m => rw [hg] at h; simp at h
    · simp [hw]
  | some m =>
    simp only
    have h1 : (removeProducerStep cm m ws).connectionMetadata = cm.connectionMetadata := by
      unfold removeProducerStep
      split <;> rfl
    have h2 : (removeVideoConsumerStep (removeProducerStep cm m ws) m ws).connectionMetadata
        = cm.connectionMetadata := by
      unfold removeVideoConsumerStep
      split <;> simp [h1]
    have h3 : (removeAlertConsumerStep (removeVideoConsumerStep
        (removeProducerStep cm m ws) m ws) m ws).connectionMetadata
        = cm.connectionMetadata := by
      unfold removeAlertConsumerStep
      split <;> simp [h2]
    rw [alGet_alErase, h3]
    by_cases hw : w' = ws
    · subst hw
      simp
    · have : ws ≠ w' := fun h => hw h.symm
      simp [hw, this]

theorem vListOf_removeProducerStep (cm : ConnectionManager) (m : ClientMetadata)
    (ws : Nat) (s : String) : vListOf (removeProducerStep cm m ws) s = vListOf cm s := by
  unfold removeProducerStep
  split <;> rfl

theorem aListOf_removeProducerStep (cm : ConnectionManager) (m : ClientMetadata)
    (ws : Nat) (s : String) : aListOf (removeProducerStep cm m ws) s = aListOf cm s := by
  unfold removeProducerStep
  split <;> rfl

theorem vmem_removeConnection_of_meta (cm : ConnectionManager) (fb : Option ClientMetadata)
    (ws : Nat) (m : ClientMetadata) (h : cm.getMetadata fb ws = some m) (c' : Nat)
    (s : String) :
    (c' ∈ vListOf (cm.removeConnection fb ws).1 s ↔
      (c' ∈ vListOf cm s ∧ ¬(c' = ws ∧ s = m.streamId ∧ MT.video ∈ m.consumes))) := by
  unfold ConnectionManager.removeConnection
  rw [h]
  simp only
  have hv1 : vListOf { removeAlertConsumerStep (removeVideoConsumerStep
      (removeProducerStep cm m ws) m ws) m ws with
      connectionMetadata := alErase (removeAlertConsumerStep (removeVideoConsumerStep
        (removeProducerStep cm m ws) m ws) m ws).connectionMetadata ws } s
      = vListOf (removeVideoConsumerStep (removeProducerStep cm m ws) m ws) s := by
    unfold vListOf removeAlertConsumerStep
    split <;> rfl
  rw [hv1]
  unfold removeVideoConsumerStep
  by_cases hc : MT.video ∈ m.consumes
  · rw [if_pos hc]
    show c' ∈ (alGet (removeFromSet (removeProducerStep cm m ws).videoConsumers
      m.streamId ws) s).getD [] ↔ _
    rw [mem_removeFromSet]
    have : (alGet (removeProducerStep cm m ws).videoConsumers s).getD []
        = vListOf cm s := vListOf_removeProducerStep cm m ws s
    rw [this]
    constructor
    · rintro ⟨h1, h2⟩
      exact ⟨h1, fun hx => h2 ⟨hx.1, hx.2.1⟩⟩
    · rintro ⟨h1, h2⟩
      exact ⟨h1, fun hx => h2 ⟨hx.1, hx.2, hc⟩⟩
  · rw [if_neg hc]
    rw [vListOf_removeProducerStep]
    constructor
    · intro h1
      exact ⟨h1, fun hx => hc hx.2.2⟩
    · exact fun h1 => h1.1

theorem amem_removeConnection_of_meta (cm : ConnectionManager) (fb : Option ClientMetadata)
    (ws : Nat) (m : ClientMetadata) (h : cm.getMetadata fb ws = some m) (c' : Nat)
    (s : String) :
    (c' ∈ aListOf (cm.removeConnection fb ws).1 s ↔
      (c' ∈ aListOf cm s ∧ ¬(c' = ws ∧ s = m.streamId ∧ MT.alert ∈ m.consumes))) := by
  unfold ConnectionManager.removeConnection
  rw [h]
  simp only
  have ha0 : aListOf { removeAlertConsumerStep (removeVideoConsumerStep
      (removeProducerStep cm m ws) m ws) m ws with
      connectionMetadata := alErase (removeAlertConsumerStep (removeVideoConsumerStep
        (removeProducerStep cm m ws) m ws) m ws).connectionMetadata ws } s
      = aListOf (removeAlertConsumerStep (removeVideoConsumerStep
        (removeProducerStep cm m ws) m ws) m ws) s := rfl
  rw [ha0]
  have ha1 : aListOf (removeVideoConsumerStep (removeProducerStep cm m ws) m ws) s
      = aListOf cm s := by
    unfold removeVideoConsumerStep
    split
    · show (alGet (removeProducerStep cm m ws).alertConsumers s).getD [] = _
      exact aListOf_removeProducerStep cm m ws s
    · exact aListOf_removeProducerStep cm m ws s
  unfold removeAlertConsumerStep
  by_cases hc : MT.alert ∈ m.consumes
  · rw [if_pos hc]
    show c' ∈ (alGet (removeFromSet (removeVideoConsumerStep
      (removeProducerStep cm m ws) m ws).alertConsumers m.streamId ws) s).getD [] ↔ _
    rw [mem_removeFromSet]
    show c' ∈ aListOf (removeVideoConsumerStep (removeProducerStep cm m ws) m ws) s
      ∧ _ ↔ _
    rw [ha1]
    constructor
    · rintro ⟨h1, h2⟩
      exact ⟨h1, fun hx => h2 ⟨hx.1, hx.2.1⟩⟩
    · rintro ⟨h1, h2⟩
      exact ⟨h1, fun hx => h2 ⟨hx.1, hx.2, hc⟩⟩
  · rw [if_neg hc]
    rw [ha1]
    constructor
    · intro h1
      exact ⟨h1, fun hx => hc hx.2.2⟩
    · exact fun h1 => h1.1

theorem videoProducers_removeConnection_of_meta (cm : ConnectionManager)
    (fb : Option ClientMetadata) (ws : Nat) (m : ClientMetadata)
    (h : cm.getMetadata fb ws = some m) (s : String) :
    alGet (cm.removeConnection fb ws).1.videoProducers s =
      if s = m.streamId ∧ MT.video ∈ m.produces ∧ alGet cm.videoProducers m.streamId = some ws
      then none else alGet cm.videoProducers s := by
  unfold ConnectionManager.removeConnection
  rw [h]
  simp only
  have h3 : (removeAlertConsumerStep (removeVideoConsumerStep
      (removeProducerStep cm m ws) m ws) m ws).videoProducers
      = (removeProducerStep cm m ws).videoProducers := by
    unfold removeAlertConsumerStep removeVideoConsumerStep
    split <;> split <;> rfl
  show alGet (removeAlertConsumerStep (removeVideoConsumerStep
      (removeProducerStep cm m ws) m ws) m ws).videoProducers s = _
  rw [h3]
  unfold removeProducerStep
  by_cases hp : MT.video ∈ m.produces ∧ alGet cm.videoProducers m.streamId = some ws
  · rw [if_pos hp]
    show alGet (alErase cm.videoProducers m.streamId) s = _
    rw [alGet_alErase]
    by_cases hs : s = m.streamId
    · subst hs
      simp [hp]
    · have : m.streamId ≠ s := fun h => hs h.symm
      simp [this, hs]
  · rw [if_neg hp]
    have : ¬ (s = m.streamId ∧ MT.video ∈ m.produces ∧
        alGet cm.videoProducers m.streamId = some ws) := by
      intro hx
      exact hp ⟨hx.2.1, hx.2.2⟩
    rw [if_neg this]

theorem nodup_vListOf (cm : ConnectionManager) (hwf : WFConsumers cm) (s : String) :
    (vListOf cm s).Nodup := by
  unfold vListOf
  cases h : alGet cm.videoConsumers s with
  | none => simp
  | some L => exact hwf.1 (s, L) (alGet_mem h)

theorem nodup_aListOf (cm : ConnectionManager) (hwf : WFConsumers cm) (s : String) :
    (aListOf cm s).Nodup := by
  unfold aListOf
  cases h : alGet cm.alertConsumers s with
  | none => simp
  | some L => exact hwf.2 (s, L) (alGet_mem h)

/-- C6: `registerConsumer` is idempotent — for every stream, connection and
kind, calling it twice yields the same registry state as calling it once,
and `getConsumers` afterwards contains exactly one occurrence of the
connection (given the operationally maintained duplicate-freeness of the
consumer sets). -/
theorem c6_registerConsumer_idempotent (cm : ConnectionManager) (s : String) (c : Nat)
    (k : MT) (hwf : WFConsumers cm) :
    (cm.registerConsumer s c k).registerConsumer s c k = cm.registerConsumer s c k ∧
    ((cm.registerConsumer s c k).getConsumers s k).count c = 1 := by
  constructor
  · cases k
    · unfold ConnectionManager.registerConsumer
      simp only [alGet_alSet_self, Option.getD_some]
      rw [setAdd_self_of_mem _
        (show c ∈ setAdd ((alGet cm.videoConsumers s).getD []) c by simp)]
      rw [alSet_alSet_self]
    · unfold ConnectionManager.registerConsumer
      simp only [alGet_alSet_self, Option.getD_some]
      rw [setAdd_self_of_mem _
        (show c ∈ setAdd ((alGet cm.alertConsumers s).getD []) c by simp)]
      rw [alSet_alSet_self]
  · cases k
    · show ((cm.registerConsumer s c MT.video).getConsumers s MT.video).count c = 1
      rw [getConsumers_video, vListOf_registerConsumer_video]
      rw [if_pos rfl]
      exact count_setAdd_self _ _ (nodup_vListOf cm hwf s)
    · show ((cm.registerConsumer s c MT.alert).getConsumers s MT.alert).count c = 1
      rw [getConsumers_alert, aListOf_registerConsumer_alert]
      rw [if_pos rfl]
      exact count_setAdd_self _ _ (nodup_aListOf cm hwf s)

/-- C6 witness: concrete instance on the empty manager. -/
theorem c6_witness :
    WFConsumers ConnectionManager.empty ∧
    ((ConnectionManager.empty.registerConsumer "s" 7 MT.video).registerConsumer "s" 7
        MT.video = ConnectionManager.empty.registerConsumer "s" 7 MT.video ∧
      (((ConnectionManager.empty.registerConsumer "s" 7 MT.video).getConsumers "s"
        MT.video).count 7 = 1)) := by
  have hwf : WFConsumers ConnectionManager.empty := by
    constructor <;> intro p hp <;> simp [ConnectionManager.empty] at hp
  exact ⟨hwf, c6_registerConsumer_idempotent ConnectionManager.empty "s" 7 MT.video hwf⟩

/-- C3 counterexample: connection 0 registered as video producer for
`"s1"`, then registered again for `"s2"`.  Immediately before
`removeConnection(0)` it occupies the `"s1"` producer slot, yet afterwards
`getProducer("s1")` is still `some 0`, not `none` — the removal guard only
consults the current (overwritten) metadata. -/
theorem c3_counterexample :
    cmTwoRegs.getProducer "s1" MT.video = some 0 ∧
    (cmTwoRegs.removeConnection (some mdS2) 0).1.getProducer "s1" MT.video = some 0 := by
  decide

/-- C3 (amended): after `removeConnection(c)`, `getProducer(s)` is `none`
iff it was already `none`, or it was `c` and the connection's current
metadata names `s` as its stream with `"video-frame"` among its `produces`;
and a slot occupied by a different connection is unchanged. -/
theorem c3_amended_producer_guard (cm : ConnectionManager) (fb : Option ClientMetadata)
    (c : Nat) (s : String) :
    ((cm.removeConnection fb c).1.getProducer s MT.video = none ↔
      (cm.getProducer s MT.video = none ∨
        (cm.getProducer s MT.video = some c ∧ ∃ m, cm.getMetadata fb c = some m ∧
          m.streamId = s ∧ MT.video ∈ m.produces))) ∧
    (∀ d, cm.getProducer s MT.video = some d → d ≠ c →
      (cm.removeConnection fb c).1.getProducer s MT.video = some d) := by
  cases hm : cm.getMetadata fb c with
  | none =>
    rw [removeConnection_of_meta_none cm fb c hm]
    constructor
    · constructor
      · intro h0
        exact Or.inl h0
      · rintro (h0 | ⟨h1, m, hmm, hrest⟩)
        · exact h0
        · simp at hmm
    · intro d hd hdc
      exact hd
  | some m =>
    have hp := videoProducers_removeConnection_of_meta cm fb c m hm s
    constructor
    · show alGet (cm.removeConnection fb c).1.videoProducers s = none ↔ _
      rw [hp]
      by_cases hcond : s = m.streamId ∧ MT.video ∈ m.produces ∧
          alGet cm.videoProducers m.streamId = some c
      · rw [if_pos hcond]
        constructor
        · intro _
          refine Or.inr ⟨?_, m, rfl, hcond.1.symm, hcond.2.1⟩
          show alGet cm.videoProducers s = some c
          rw [hcond.1]
          exact hcond.2.2
        · intro _
          rfl
      · rw [if_neg hcond]
        constructor
        · intro h0
          exact Or.inl h0
        · rintro (h0 | ⟨h1, m', hm', hs, hprod⟩)
          · exact h0
          · injection hm' with hmm
            subst hmm
            refine absurd ⟨hs.symm, hprod, ?_⟩ hcond
            rw [hs]
            exact h1
    · intro d hd hdc
      show alGet (cm.removeConnection fb c).1.videoProducers s = some d
      rw [hp]
      have hnc : ¬(s = m.streamId ∧ MT.video ∈ m.produces ∧
          alGet cm.videoProducers m.streamId = some c) := by
        rintro ⟨h1, h2, h3⟩
        rw [← h1] at h3
        rw [show alGet cm.videoProducers s = some d from hd] at h3
        injection h3 with h4
        exact hdc h4
      rw [if_neg hnc]
      exact hd

/-- C3 witness: on the two-registration state, removal does clear the
producer slot of the stream named by the current metadata. -/
theorem c3_witness :
    (cmTwoRegs.removeConnection (some mdS2) 0).1.getProducer "s2" MT.video = none := by
  have h := c3_amended_producer_guard cmTwoRegs (some mdS2) 0 "s2"
  exact h.1.mpr (Or.inr ⟨by decide, mdS2, by decide, by decide, by decide⟩)

@[simp]
theorem trySend_cm (w : World) (target : Nat) (msg : OutMsg) :
    (trySend w target msg).cm = w.cm := by
  unfold trySend
  split <;> rfl

@[simp]
theorem trySend_wsData (w : World) (target : Nat) (msg : OutMsg) :
    (trySend w target msg).wsData = w.wsData := by
  unfold trySend
  split <;> rfl

@[simp]
theorem trySend_closed (w : World) (target : Nat) (msg : OutMsg) :
    (trySend w target msg).closed = w.closed := by
  unfold trySend
  split <;> rfl

@[simp]
theorem trySend_closes (w : World) (target : Nat) (msg : OutMsg) :
    (trySend w target msg).closes = w.closes := by
  unfold trySend
  split <;> rfl

@[simp]
theorem trySend_metrics (w : World) (target : Nat) (msg : OutMsg) :
    (trySend w target msg).metrics = w.metrics := by
  unfold trySend
  split <;> rfl

@[simp]
theorem trySend_dbAlerts (w : World) (target : Nat) (msg : OutMsg) :
    (trySend w target msg).dbAlerts = w.dbAlerts := by
  unfold trySend
  split <;> rfl

theorem trySend_sent (w : World) (target : Nat) (msg : OutMsg) :
    (trySend w target msg).sent =
      w.sent ++ (if target ∈ w.closed then [] else [(target, msg)]) := by
  unfold trySend
  split
  · simp
  · rfl

@[simp]
theorem fanOut_cm (l : List Nat) (w : World) (msg : OutMsg) :
    (fanOut w l msg).cm = w.cm := by
  induction l generalizing w with
  | nil => rfl
  | cons c rest ih =>
    show (fanOut (trySend w c msg) rest msg).cm = w.cm
    rw [ih, trySend_cm]

@[simp]
theorem fanOut_wsData (l : List Nat) (w : World) (msg : OutMsg) :
    (fanOut w l msg).wsData = w.wsData := by
  induction l generalizing w with
  | nil => rfl
  | cons c rest ih =>
    show (fanOut (trySend w c msg) rest msg).wsData = w.wsData
    rw [ih, trySend_wsData]

@[simp]
theorem fanOut_closed (l : List Nat) (w : World) (msg : OutMsg) :
    (fanOut w l msg).closed = w.closed := by
  induction l generalizing w with
  | nil => rfl
  | cons c rest ih =>
    show (fanOut (trySend w c msg) rest msg).closed = w.closed
    rw [ih, trySend_closed]

@[simp]
theorem fanOut_closes (l : List Nat) (w : World) (msg : OutMsg) :
    (fanOut w l msg).closes = w.closes := by
  induction l generalizing w with
  | nil => rfl
  | cons c rest ih =>
    show (fanOut (trySend w c msg) rest msg).closes = w.closes
    rw [ih, trySend_closes]

@[simp]
theorem fanOut_metrics (l : List Nat) (w : World) (msg : OutMsg) :
    (fanOut w l msg).metrics = w.metrics := by
  induction l generalizing w with
  | nil => rfl
  | cons c rest ih =>
    show (fanOut (trySend w c msg) rest msg).metrics = w.metrics
    rw [ih, trySend_metrics]

@[simp]
theorem fanOut_dbAlerts (l : List Nat) (w : World) (msg : OutMsg) :
    (fanOut w l msg).dbAlerts = w.dbAlerts := by
  induction l generalizing w with
  | nil => rfl
  | cons c rest ih =>
    show (fanOut (trySend w c msg) rest msg).dbAlerts = w.dbAlerts
    rw [ih, trySend_dbAlerts]

theorem deliveredTo_cons (c : Nat) (rest closed : List Nat) (msg : OutMsg) :
    deliveredTo (c :: rest) closed msg =
      if c ∈ closed then deliveredTo rest closed msg
      else (c, msg) :: deliveredTo rest closed msg := rfl

theorem fanOut_sent (l : List Nat) (w : World) (msg : OutMsg) :
    (fanOut w l msg).sent = w.sent ++ deliveredTo l w.closed msg := by
  induction l generalizing w with
  | nil => simp [fanOut, deliveredTo]
  | cons c rest ih =>
    show (fanOut (trySend w c msg) rest msg).sent = _
    rw [ih, trySend_closed, trySend_sent, deliveredTo_cons]
    by_cases h : c ∈ w.closed
    · simp [h]
    · simp [h]

theorem mem_deliveredTo (l closed : List Nat) (msg : OutMsg) (d : Nat)
    (hd : d ∈ l) (hopen : d ∉ closed) : (d, msg) ∈ deliveredTo l closed msg := by
  induction l with
  | nil => simp at hd
  | cons c rest ih =>
    unfold deliveredTo
    rcases List.mem_cons.mp hd with h | h
    · subst h
      rw [if_neg hopen]
      exact List.mem_cons_self _ _
    · by_cases hc : c ∈ closed
      · rw [if_pos hc]
        exact ih h
      · rw [if_neg hc]
        exact List.mem_cons_of_mem _ (ih h)

theorem deliveredTo_all_open (l closed : List Nat) (msg : OutMsg)
    (h : ∀ d ∈ l, d ∉ closed) :
    deliveredTo l closed msg = l.map (fun c => (c, msg)) := by
  induction l with
  | nil => rfl
  | cons c rest ih =>
    unfold deliveredTo
    rw [if_neg (h c (List.mem_cons_self _ _))]
    rw [ih (fun d hd => h d (List.mem_cons_of_mem _ hd))]
    rfl

theorem deliveredTo_one_closed (l closed : List Nat) (msg : OutMsg) (bad : Nat)
    (hbad : bad ∈ l) (hclosed : bad ∈ closed)
    (hrest : ∀ d ∈ l, d ≠ bad → d ∉ closed) (hnodup : l.Nodup) :
    deliveredTo l closed msg = (l.erase bad).map (fun c => (c, msg)) := by
  induction l with
  | nil => simp at hbad
  | cons c rest ih =>
    have hnd := List.nodup_cons.mp hnodup
    by_cases hc : c = bad
    · subst hc
      unfold deliveredTo
      rw [if_pos hclosed, List.erase_cons_head]
      refine deliveredTo_all_open rest closed msg ?_
      intro d hd
      refine hrest d (List.mem_cons_of_mem _ hd) ?_
      intro he
      subst he
      exact hnd.1 hd
    · have hbadr : bad ∈ rest := by
        rcases List.mem_cons.mp hbad with h | h
        · exact absurd h.symm hc
        · exact h
      unfold deliveredTo
      rw [if_neg (hrest c (List.mem_cons_self _ _) hc)]
      rw [List.erase_cons_tail]
      · rw [List.map_cons]
        rw [ih hbadr (fun d hd hne => hrest d (List.mem_cons_of_mem _ hd) hne) hnd.2]
      · simp [hc]

theorem count_deliveredTo (l closed : List Nat) (msg : OutMsg) (d : Nat)
    (hopen : d ∉ closed) :
    (deliveredTo l closed msg).count (d, msg) = l.count d := by
  induction l with
  | nil => rfl
  | cons c rest ih =>
    rw [deliveredTo_cons]
    by_cases hc : c ∈ closed
    · rw [if_pos hc]
      have hne : c ≠ d := fun he => hopen (he ▸ hc)
      have hdc : d ≠ c := fun he => hne (Eq.symm he)
      rw [ih, List.count_cons]
      simp [hdc, hne]
    · rw [if_neg hc]
      rw [List.count_cons, List.count_cons, ih]
      by_cases hcd : d = c
      · subst hcd
        simp
      · have hpair : ¬ (((d, msg) : Nat × OutMsg) = (c, msg)) := by
          intro he
          exact hcd (congrArg Prod.fst he)
        simp [hcd, hpair]

/-- C2: every non-auth client message (register, subscribe, video-frame,
alert) on a connection whose `authenticated` flag is false is answered with
an `AUTH_REQUIRED` error and has no other effect: registry, `ws.data`,
metrics, closed set, close calls and database are untouched, and the only
send is the error to the sender. -/
theorem c2_unauthenticated_rejected (w : World) (ws : Nat) (msg : WSMessage) (now : Nat)
    (verify : String → Option SessionInfo) (suffix : String) (d : ClientMetadata)
    (hd : alGet w.wsData ws = some d) (hauth : d.authenticated = false)
    (hopen : ws ∉ w.closed) (hmsg : isNonAuthClientMsg msg) :
    ∃ txt, routeMessage w ws msg now verify suffix =
      { w with sent := w.sent ++ [(ws, OutMsg.errorMsg "AUTH_REQUIRED" txt now)] } := by
  cases msg with
  | auth t => exact absurd hmsg (by simp [isNonAuthClientMsg])
  | unknown tag => exact absurd hmsg (by simp [isNonAuthClientMsg])
  | register m =>
    refine ⟨"Must authenticate first. Send auth message with token.", ?_⟩
    show handleRegister w ws m now suffix = _
    unfold handleRegister
    rw [hd]
    simp only [hauth, Bool.not_false, if_true]
    unfold sendError trySend
    rw [if_neg hopen]
  | subscribe m =>
    refine ⟨"Must authenticate first. Send auth message with token.", ?_⟩
    show handleSubscribe w ws m now = _
    unfold handleSubscribe
    rw [hd]
    simp only [hauth, Bool.not_false, if_true]
    unfold sendError trySend
    rw [if_neg hopen]
  | videoFrame m =>
    refine ⟨"Must authenticate first", ?_⟩
    show handleVideoFrame w ws m now = _
    unfold handleVideoFrame
    rw [hd]
    simp only [hauth, Bool.not_false, if_true]
    unfold sendError trySend
    rw [if_neg hopen]
  | alertM m =>
    refine ⟨"Must authenticate first", ?_⟩
    show handleAlert w ws m now = _
    unfold handleAlert
    rw [hd]
    simp only [hauth, Bool.not_false, if_true]
    unfold sendError trySend
    rw [if_neg hopen]

@[simp]
theorem sendError_wsData (w : World) (ws : Nat) (code msg : String) (now : Nat) :
    (sendError w ws code msg now).wsData = w.wsData := trySend_wsData _ _ _

@[simp]
theorem sendError_cm (w : World) (ws : Nat) (code msg : String) (now : Nat) :
    (sendError w ws code msg now).cm = w.cm := trySend_cm _ _ _

@[simp]
theorem sendSuccess_wsData (w : World) (ws : Nat) (msg : String) (now : Nat) :
    (sendSuccess w ws msg now).wsData = w.wsData := trySend_wsData _ _ _

@[simp]
theorem sendSuccess_cm (w : World) (ws : Nat) (msg : String) (now : Nat) :
    (sendSuccess w ws msg now).cm = w.cm := trySend_cm _ _ _

@[simp]
theorem broadcastStatus_wsData (w : World) (sid status : String) (now : Nat) :
    (broadcastStatus w sid status now).wsData = w.wsData := by
  unfold broadcastStatus
  exact fanOut_wsData _ _ _

@[simp]
theorem broadcastStatus_cm (w : World) (sid status : String) (now : Nat) :
    (broadcastStatus w sid status now).cm = w.cm := by
  unfold broadcastStatus
  exact fanOut_cm _ _ _

@[simp]
theorem broadcastStatus_closed (w : World) (sid status : String) (now : Nat) :
    (broadcastStatus w sid status now).closed = w.closed := by
  unfold broadcastStatus
  exact fanOut_closed _ _ _

@[simp]
theorem broadcastStatus_metrics (w : World) (sid status : String) (now : Nat) :
    (broadcastStatus w sid status now).metrics = w.metrics := by
  unfold broadcastStatus
  exact fanOut_metrics _ _ _

theorem broadcastStatus_sent (w : World) (sid status : String) (now : Nat) :
    (broadcastStatus w sid status now).sent =
      w.sent ++ deliveredTo (w.cm.getConsumers sid MT.video ++ w.cm.getConsumers sid MT.alert)
        w.closed (OutMsg.statusMsg sid status now) := by
  unfold broadcastStatus
  exact fanOut_sent _ _ _

/-- Where `handleAuth` can leave `ws.data`: unchanged, or (exactly on a
verified token for an unauthenticated connection) updated at `ws` with the
session identity. -/
theorem handleAuth_wsData_char (w : World) (ws : Nat) (t : String) (now : Nat)
    (verify : String → Option SessionInfo) :
    (handleAuth w ws t now verify).wsData = w.wsData ∨
    (∃ d sess, alGet w.wsData ws = some d ∧ d.authenticated = false ∧
      verify t = some sess ∧
      (handleAuth w ws t now verify).wsData = alSet w.wsData ws (authSuccessData d sess)) := by
  unfold handleAuth
  cases h : alGet w.wsData ws with
  | none => exact Or.inl rfl
  | some d =>
    cases hb : d.authenticated with
    | true =>
      refine Or.inl ?_
      simp [hb]
    | false =>
      cases hv : verify t with
      | none =>
        refine Or.inl ?_
        simp [hb]
      | some sess =>
        refine Or.inr ⟨d, sess, rfl, hb, rfl, ?_⟩
        simp [hb]

/-- Where `handleRegister` can leave `ws.data`: unchanged, or (exactly when
the connection is authenticated with a user id) updated at `ws` with the
built registration metadata, which keeps the `authenticated` flag. -/
theorem handleRegister_wsData_char (w : World) (ws : Nat) (m : RegisterMsg) (now : Nat)
    (suffix : String) :
    (handleRegister w ws m now suffix).wsData = w.wsData ∨
    (∃ d, alGet w.wsData ws = some d ∧ d.authenticated = true ∧
      (handleRegister w ws m now suffix).wsData = alSet w.wsData ws
        (registerMetadata d m (if m.streamId = "" then genStreamId now suffix else m.streamId))) := by
  unfold handleRegister
  cases h : alGet w.wsData ws with
  | none => exact Or.inl rfl
  | some d =>
    cases hb : d.authenticated with
    | false =>
      refine Or.inl ?_
      simp [hb]
    | true =>
      by_cases hu : d.userId = none
      · refine Or.inl ?_
        simp [hb, hu]
      · refine Or.inr ⟨d, rfl, hb, ?_⟩
        simp only [hb, Bool.not_true]
        rw [if_neg (by simp)]
        rw [if_neg hu]
        split
        · simp
        · simp

/-- Where `handleSubscribe` can leave `ws.data`: unchanged, or updated with
the built subscription metadata, which keeps the `authenticated` flag. -/
theorem handleSubscribe_wsData_char (w : World) (ws : Nat) (m : SubscribeMsg) (now : Nat) :
    (handleSubscribe w ws m now).wsData = w.wsData ∨
    (∃ d, alGet w.wsData ws = some d ∧ d.authenticated = true ∧
      (handleSubscribe w ws m now).wsData = alSet w.wsData ws (subscribeMetadata d m)) := by
  unfold handleSubscribe
  cases h : alGet w.wsData ws with
  | none => exact Or.inl rfl
  | some d =>
    cases hb : d.authenticated with
    | false =>
      refine Or.inl ?_
      simp [hb]
    | true =>
      by_cases hu : d.userId = none
      · refine Or.inl ?_
        simp [hb, hu]
      · refine Or.inr ⟨d, rfl, hb, ?_⟩
        simp [hb, hu]

theorem handleVideoFrame_wsData (w : World) (ws : Nat) (m : VideoFrameMsg) (now : Nat) :
    (handleVideoFrame w ws m now).wsData = w.wsData := by
  unfold handleVideoFrame
  cases h : alGet w.wsData ws with
  | none => rfl
  | some d =>
    dsimp only
    by_cases hb : (!d.authenticated) = true
    · rw [if_pos hb]
      simp
    · rw [if_neg hb]
      simp

theorem handleAlert_wsData (w : World) (ws : Nat) (m : AlertMsg) (now : Nat) :
    (handleAlert w ws m now).wsData = w.wsData := by
  unfold handleAlert
  cases h : alGet w.wsData ws with
  | none => rfl
  | some d =>
    dsimp only
    by_cases hb : (!d.authenticated) = true
    · rw [if_pos hb]
      simp
    · rw [if_neg hb]
      split
      · rfl
      · simp

theorem wsData_flip_contra {l : List (Nat × ClientMetadata)} {w : World} {ws : Nat}
    {d d2 : ClientMetadata} (hch : l = w.wsData) (hd : alGet w.wsData ws = some d)
    (hfalse : d.authenticated = false) (h2 : alGet l ws = some d2)
    (hauth2 : d2.authenticated = true) : False := by
  subst hch
  rw [hd] at h2
  injection h2 with he
  subst he
  rw [hfalse] at hauth2
  simp at hauth2

/-- C2 witness: a video frame on a fresh unauthenticated connection is
rejected with `AUTH_REQUIRED` and nothing else changes. -/
theorem c2_witness :
    alGet wUnauth.wsData 0 = some (upgradeData ClientType.mobile 0) ∧
    (upgradeData ClientType.mobile 0).authenticated = false ∧
    0 ∉ wUnauth.closed ∧
    (∃ txt, routeMessage wUnauth 0 (WSMessage.videoFrame vfDemo) 5 (fun _ => none) "x" =
      { wUnauth with sent := wUnauth.sent ++ [(0, OutMsg.errorMsg "AUTH_REQUIRED" txt 5)] }) :=
  ⟨by decide, by decide, by decide,
    c2_unauthenticated_rejected wUnauth 0 (WSMessage.videoFrame vfDemo) 5 (fun _ => none)
      "x" (upgradeData ClientType.mobile 0) (by decide) (by decide) (by decide) trivial⟩

/-- C4: the `authenticated` flag starts false at upgrade; an auth message
on an already-authenticated connection is answered `ALREADY_AUTHENTICATED`
with no other change; a rejected token produces `AUTH_FAILED` and a
close-1008 with `authenticated` left false; an accepted token sets the flag;
the flag is monotone under every message; and it can only flip to true via
an auth message whose token the verifier accepts. -/
theorem c4_auth_state_machine (w : World) (ws : Nat) (t : String) (now : Nat)
    (verify : String → Option SessionInfo) (suffix : String) (d : ClientMetadata)
    (ct : ClientType) (n0 : Nat)
    (hd : alGet w.wsData ws = some d) (hopen : ws ∉ w.closed) :
    (upgradeData ct n0).authenticated = false ∧
    (d.authenticated = true →
      routeMessage w ws (WSMessage.auth t) now verify suffix =
        { w with sent := w.sent ++
            [(ws, OutMsg.errorMsg "ALREADY_AUTHENTICATED" "Connection already authenticated" now)] }) ∧
    (d.authenticated = false → verify t = none →
      routeMessage w ws (WSMessage.auth t) now verify suffix =
        { w with
            closed := w.closed ++ [ws],
            sent := w.sent ++
              [(ws, OutMsg.errorMsg "AUTH_FAILED" "Invalid or expired authentication token" now)],
            closes := w.closes ++ [(ws, 1008)] }) ∧
    (d.authenticated = false → ∀ sess, verify t = some sess →
      (alGet (routeMessage w ws (WSMessage.auth t) now verify suffix).wsData ws).map
        ClientMetadata.authenticated = some true) ∧
    (∀ msg : WSMessage, ∀ c' : Nat, ∀ d1 : ClientMetadata,
      alGet w.wsData c' = some d1 → d1.authenticated = true →
      ∃ d2, alGet (routeMessage w ws msg now verify suffix).wsData c' = some d2 ∧
        d2.authenticated = true) ∧
    (∀ msg : WSMessage, d.authenticated = false →
      ∀ d2, alGet (routeMessage w ws msg now verify suffix).wsData ws = some d2 →
        d2.authenticated = true →
        ∃ tok sess, msg = WSMessage.auth tok ∧ verify tok = some sess) := by
  refine ⟨rfl, ?_, ?_, ?_, ?_, ?_⟩
  · intro htrue
    show handleAuth w ws t now verify = _
    unfold handleAuth
    rw [hd]
    dsimp only
    rw [if_pos htrue]
    unfold sendError trySend
    rw [if_neg hopen]
  · intro hfalse hvnone
    show handleAuth w ws t now verify = _
    unfold handleAuth
    rw [hd]
    dsimp only
    rw [if_neg (by simp [hfalse])]
    rw [hvnone]
    dsimp only
    unfold sendError trySend
    rw [if_neg hopen]
  · intro hfalse sess hvsome
    show (alGet (handleAuth w ws t now verify).wsData ws).map ClientMetadata.authenticated
      = some true
    unfold handleAuth
    rw [hd]
    dsimp only
    rw [if_neg (by simp [hfalse])]
    rw [hvsome]
    dsimp only
    rw [sendSuccess_wsData]
    dsimp only
    rw [alGet_alSet_self]
    rfl
  · intro msg c' d1 h1 hauth1
    cases msg with
    | auth t2 =>
      show ∃ d2, alGet (handleAuth w ws t2 now verify).wsData c' = some d2 ∧
        d2.authenticated = true
      rcases handleAuth_wsData_char w ws t2 now verify with hch | ⟨d0, sess, hd0, hb0, hv0, hch⟩
      · rw [hch]
        exact ⟨d1, h1, hauth1⟩
      · rw [hch]
        by_cases hcw : c' = ws
        · subst hcw
          rw [alGet_alSet_self]
          exact ⟨authSuccessData d0 sess, rfl, rfl⟩
        · rw [alGet_alSet_ne _ _ (fun he => hcw he.symm)]
          exact ⟨d1, h1, hauth1⟩
    | register m =>
      show ∃ d2, alGet (handleRegister w ws m now suffix).wsData c' = some d2 ∧
        d2.authenticated = true
      rcases handleRegister_wsData_char w ws m now suffix with hch | ⟨d0, hd0, hb0, hch⟩
      · rw [hch]
        exact ⟨d1, h1, hauth1⟩
      · rw [hch]
        by_cases hcw : c' = ws
        · subst hcw
          rw [alGet_alSet_self]
          exact ⟨_, rfl, hb0⟩
        · rw [alGet_alSet_ne _ _ (fun he => hcw he.symm)]
          exact ⟨d1, h1, hauth1⟩
    | subscribe m =>
      show ∃ d2, alGet (handleSubscribe w ws m now).wsData c' = some d2 ∧
        d2.authenticated = true
      rcases handleSubscribe_wsData_char w ws m now with hch | ⟨d0, hd0, hb0, hch⟩
      · rw [hch]
        exact ⟨d1, h1, hauth1⟩
      · rw [hch]
        by_cases hcw : c' = ws
        · subst hcw
          rw [alGet_alSet_self]
          exact ⟨_, rfl, hb0⟩
        · rw [alGet_alSet_ne _ _ (fun he => hcw he.symm)]
          exact ⟨d1, h1, hauth1⟩
    | videoFrame m =>
      show ∃ d2, alGet (handleVideoFrame w ws m now).wsData c' = some d2 ∧
        d2.authenticated = true
      rw [handleVideoFrame_wsData]
      exact ⟨d1, h1, hauth1⟩
    | alertM m =>
      show ∃ d2, alGet (handleAlert w ws m now).wsData c' = some d2 ∧
        d2.authenticated = true
      rw [handleAlert_wsData]
      exact ⟨d1, h1, hauth1⟩
    | unknown tag =>
      show ∃ d2, alGet (sendError w ws "UNKNOWN_MESSAGE_TYPE"
        ("Unknown message type: " ++ tag) now).wsData c' = some d2 ∧ d2.authenticated = true
      rw [sendError_wsData]
      exact ⟨d1, h1, hauth1⟩
  · intro msg hfalse d2 h2 hauth2
    cases msg with
    | auth t2 =>
      have h2a : alGet (handleAuth w ws t2 now verify).wsData ws = some d2 := h2
      rcases handleAuth_wsData_char w ws t2 now verify with hch | ⟨d0, sess, hd0, hb0, hv0, hch⟩
      · exact (wsData_flip_contra hch hd hfalse h2a hauth2).elim
      · exact ⟨t2, sess, rfl, hv0⟩
    | register m =>
      have h2a : alGet (handleRegister w ws m now suffix).wsData ws = some d2 := h2
      rcases handleRegister_wsData_char w ws m now suffix with hch | ⟨d0, hd0, hb0, hch⟩
      · exact (wsData_flip_contra hch hd hfalse h2a hauth2).elim
      · rw [hd] at hd0
        injection hd0 with he
        subst he
        rw [hfalse] at hb0
        simp at hb0
    | subscribe m =>
      have h2a : alGet (handleSubscribe w ws m now).wsData ws = some d2 := h2
      rcases handleSubscribe_wsData_char w ws m now with hch | ⟨d0, hd0, hb0, hch⟩
      · exact (wsData_flip_contra hch hd hfalse h2a hauth2).elim
      · rw [hd] at hd0
        injection hd0 with he
        subst he
        rw [hfalse] at hb0
        simp at hb0
    | videoFrame m =>
      have h2a : alGet (handleVideoFrame w ws m now).wsData ws = some d2 := h2
      exact (wsData_flip_contra (handleVideoFrame_wsData w ws m now) hd hfalse
        h2a hauth2).elim
    | alertM m =>
      have h2a : alGet (handleAlert w ws m now).wsData ws = some d2 := h2
      exact (wsData_flip_contra (handleAlert_wsData w ws m now) hd hfalse
        h2a hauth2).elim
    | unknown tag =>
      have h2a : alGet (sendError w ws "UNKNOWN_MESSAGE_TYPE"
        ("Unknown message type: " ++ tag) now).wsData ws = some d2 := h2
      rw [sendError_wsData] at h2a
      exact (wsData_flip_contra rfl hd hfalse h2a hauth2).elim

/-- C4 witness: a fresh connection authenticating with an accepted token
ends with `authenticated = true`. -/
theorem c4_witness :
    (alGet (routeMessage wUnauth 0 (WSMessage.auth "good") 5 verifyDemo "x").wsData 0).map
      ClientMetadata.authenticated = some true := by
  have h := c4_auth_state_machine wUnauth 0 "good" 5 verifyDemo "x"
    (upgradeData ClientType.mobile 0) ClientType.mobile 0 (by decide) (by decide)
  exact h.2.2.2.1 (by decide) sessDemo (by decide)

theorem handleVideoFrame_sent_auth (w : World) (ws : Nat) (m : VideoFrameMsg) (now : Nat)
    (d : ClientMetadata) (hd : alGet w.wsData ws = some d)
    (hauth : d.authenticated = true) :
    (handleVideoFrame w ws m now).sent = w.sent ++
      deliveredTo (w.cm.getConsumers m.streamId MT.video) w.closed
        (OutMsg.videoFrameOut m) := by
  unfold handleVideoFrame
  rw [hd]
  dsimp only
  rw [if_neg (by simp [hauth])]
  rw [fanOut_sent]

theorem handleAlert_sent_auth (w : World) (ws : Nat) (m : AlertMsg) (now : Nat)
    (d : ClientMetadata) (hd : alGet w.wsData ws = some d)
    (hauth : d.authenticated = true)
    (hne : w.cm.getConsumers m.streamId MT.alert ≠ []) :
    (handleAlert w ws m now).sent = w.sent ++
      deliveredTo (w.cm.getConsumers m.streamId MT.alert) w.closed (OutMsg.alertOut m) := by
  unfold handleAlert
  rw [hd]
  dsimp only
  rw [if_neg (by simp [hauth])]
  rw [if_neg (by simpa using hne)]
  rw [fanOut_sent]

/-- C5: when exactly one consumer in the matching (stream, kind) set has a
closed transport, the video-frame and alert fan-outs still deliver to all
the other consumers: the send log grows by exactly the other N−1
consumers, in order. -/
theorem c5_fanout_isolates_failure (w : World) (ws : Nat) (vm : VideoFrameMsg)
    (am : AlertMsg) (now : Nat) (d : ClientMetadata) (bad : Nat)
    (hd : alGet w.wsData ws = some d) (hauth : d.authenticated = true)
    (hbadclosed : bad ∈ w.closed) :
    (bad ∈ w.cm.getConsumers vm.streamId MT.video →
      (w.cm.getConsumers vm.streamId MT.video).Nodup →
      (∀ x ∈ w.cm.getConsumers vm.streamId MT.video, x ≠ bad → x ∉ w.closed) →
      (handleVideoFrame w ws vm now).sent = w.sent ++
        ((w.cm.getConsumers vm.streamId MT.video).erase bad).map
          (fun c => (c, OutMsg.videoFrameOut vm)) ∧
      (((w.cm.getConsumers vm.streamId MT.video).erase bad).map
          (fun c => (c, OutMsg.videoFrameOut vm))).length =
        (w.cm.getConsumers vm.streamId MT.video).length - 1) ∧
    (bad ∈ w.cm.getConsumers am.streamId MT.alert →
      (w.cm.getConsumers am.streamId MT.alert).Nodup →
      (∀ x ∈ w.cm.getConsumers am.streamId MT.alert, x ≠ bad → x ∉ w.closed) →
      (handleAlert w ws am now).sent = w.sent ++
        ((w.cm.getConsumers am.streamId MT.alert).erase bad).map
          (fun c => (c, OutMsg.alertOut am)) ∧
      (((w.cm.getConsumers am.streamId MT.alert).erase bad).map
          (fun c => (c, OutMsg.alertOut am))).length =
        (w.cm.getConsumers am.streamId MT.alert).length - 1) := by
  constructor
  · intro hmem hnodup hrest
    constructor
    · rw [handleVideoFrame_sent_auth w ws vm now d hd hauth]
      rw [deliveredTo_one_closed _ _ _ bad hmem hbadclosed hrest hnodup]
    · rw [List.length_map, List.length_erase_of_mem hmem]
  · intro hmem hnodup hrest
    constructor
    · rw [handleAlert_sent_auth w ws am now d hd hauth (List.ne_nil_of_mem hmem)]
      rw [deliveredTo_one_closed _ _ _ bad hmem hbadclosed hrest hnodup]
    · rw [List.length_map, List.length_erase_of_mem hmem]

/-- C5 witness: with consumers 1, 2, 3 and consumer 2 closed, both fan-outs
deliver to exactly 1 and 3. -/
theorem c5_witness :
    (handleVideoFrame wFan 0 vfDemo 6).sent =
      [(1, OutMsg.videoFrameOut vfDemo), (3, OutMsg.videoFrameOut vfDemo)] ∧
    (handleAlert wFan 0 amDemo 6).sent =
      [(1, OutMsg.alertOut amDemo), (3, OutMsg.alertOut amDemo)] := by
  have h := c5_fanout_isolates_failure wFan 0 vfDemo amDemo 6 mdBase 2
    (by decide) (by decide) (by decide)
  have h1 := h.1 (by decide) (by decide) (by decide)
  have h2 := h.2 (by decide) (by decide) (by decide)
  constructor
  · rw [h1.1]
    decide
  · rw [h2.1]
    decide

/-- C8 counterexample: connection 5 is registered as a consumer of both
kinds for stream `"s"`; the status broadcast sends it the status event
twice, not exactly once — the helper concatenates the two consumer lists
without deduplication. -/
theorem c8_counterexample :
    (broadcastStatus wBoth "s" "offline" 7).sent.count
      (5, OutMsg.statusMsg "s" "offline" 7) = 2 := by
  decide

/-- C8 (amended): the status-broadcast helper pushes the status event along
the concatenation of the stream's video and alert consumer lists, so an
open connection receives one event per consumer list containing it — a
connection registered for both kinds receives it twice, not once. -/
theorem c8_amended_status_per_set (w : World) (sid status : String) (now : Nat) :
    ((broadcastStatus w sid status now).sent = w.sent ++
      deliveredTo (w.cm.getConsumers sid MT.video ++ w.cm.getConsumers sid MT.alert)
        w.closed (OutMsg.statusMsg sid status now)) ∧
    (∀ d, d ∉ w.closed →
      (broadcastStatus w sid status now).sent.count (d, OutMsg.statusMsg sid status now) =
        w.sent.count (d, OutMsg.statusMsg sid status now) +
          ((w.cm.getConsumers sid MT.video).count d +
            (w.cm.getConsumers sid MT.alert).count d)) := by
  constructor
  · exact broadcastStatus_sent w sid status now
  · intro d hopen
    rw [broadcastStatus_sent w sid status now]
    rw [List.count_append]
    rw [count_deliveredTo _ _ _ _ hopen]
    rw [List.count_append]

/-- C8 witness: the per-list count instantiated on the dual-consumer world. -/
theorem c8_witness :
    (5 ∉ wBoth.closed) ∧
    (broadcastStatus wBoth "s" "offline" 7).sent.count (5, OutMsg.statusMsg "s" "offline" 7) =
      wBoth.sent.count (5, OutMsg.statusMsg "s" "offline" 7) +
        ((wBoth.cm.getConsumers "s" MT.video).count 5 +
          (wBoth.cm.getConsumers "s" MT.alert).count 5) :=
  ⟨by decide, (c8_amended_status_per_set wBoth "s" "offline" 7).2 5 (by decide)⟩

/-- C9: for an authenticated alert, a database-insert failure changes
nothing observable except the database itself — registry, `ws.data`, send
log, closed set, close calls and metrics are identical to the successful
run, and the alert still reaches every open registered alert consumer in
both runs. -/
theorem c9_persistence_failure_broadcast (w : World) (ws : Nat) (m : AlertMsg) (now : Nat)
    (d : ClientMetadata) (hd : alGet w.wsData ws = some d)
    (hauth : d.authenticated = true) :
    (handleAlertPersist w ws m true now).cm = (handleAlertPersist w ws m false now).cm ∧
    (handleAlertPersist w ws m true now).wsData =
      (handleAlertPersist w ws m false now).wsData ∧
    (handleAlertPersist w ws m true now).sent =
      (handleAlertPersist w ws m false now).sent ∧
    (handleAlertPersist w ws m true now).closed =
      (handleAlertPersist w ws m false now).closed ∧
    (handleAlertPersist w ws m true now).closes =
      (handleAlertPersist w ws m false now).closes ∧
    (handleAlertPersist w ws m true now).metrics =
      (handleAlertPersist w ws m false now).metrics ∧
    (∀ c ∈ w.cm.getConsumers m.streamId MT.alert, c ∉ w.closed →
      ((c, OutMsg.alertOut m) ∈ (handleAlertPersist w ws m false now).sent ∧
        (c, OutMsg.alertOut m) ∈ (handleAlertPersist w ws m true now).sent)) := by
  unfold handleAlertPersist
  have hT : (if (true : Bool) = true then { w with dbAlerts := w.dbAlerts ++ [m] } else w)
      = { w with dbAlerts := w.dbAlerts ++ [m] } := if_pos rfl
  have hF : (if (false : Bool) = true then { w with dbAlerts := w.dbAlerts ++ [m] } else w)
      = w := if_neg (by simp)
  rw [hT, hF]
  dsimp only
  by_cases hlen : (w.cm.getConsumers m.streamId MT.alert).length = 0
  · rw [if_pos hlen, if_pos hlen]
    have hnil : w.cm.getConsumers m.streamId MT.alert = [] := List.length_eq_zero.mp hlen
    refine ⟨rfl, rfl, rfl, rfl, rfl, rfl, ?_⟩
    intro c hc hopen
    rw [hnil] at hc
    simp at hc
  · rw [if_neg hlen, if_neg hlen]
    refine ⟨by simp, by simp, ?_, by simp, by simp, by simp, ?_⟩
    · rw [fanOut_sent, fanOut_sent]
    · intro c hc hopen
      constructor
      · rw [fanOut_sent]
        exact List.mem_append_right _ (mem_deliveredTo _ _ _ _ hc hopen)
      · rw [fanOut_sent]
        exact List.mem_append_right _ (mem_deliveredTo _ _ _ _ hc hopen)

/-- C9 witness: on the three-consumer world the send logs of the
successful-persist and failed-persist runs coincide, and open consumer 1
receives the alert. -/
theorem c9_witness :
    (handleAlertPersist wFan 0 amDemo true 6).sent =
      (handleAlertPersist wFan 0 amDemo false 6).sent ∧
    (1, OutMsg.alertOut amDemo) ∈ (handleAlertPersist wFan 0 amDemo false 6).sent := by
  have h := c9_persistence_failure_broadcast wFan 0 amDemo 6 mdBase (by decide) (by decide)
  exact ⟨h.2.2.1, (h.2.2.2.2.2.2 1 (by decide) (by decide)).1⟩

theorem getMetadata_of_map (cm : ConnectionManager) (fb : Option ClientMetadata)
    (ws : Nat) (m : ClientMetadata) (h : alGet cm.connectionMetadata ws = some m) :
    cm.getMetadata fb ws = some m := by
  unfold ConnectionManager.getMetadata
  rw [h]

theorem removeConnection_snd (cm : ConnectionManager) (fb : Option ClientMetadata)
    (ws : Nat) (m : ClientMetadata) (h : cm.getMetadata fb ws = some m) :
    (cm.removeConnection fb ws).2 = some m := by
  unfold ConnectionManager.removeConnection
  rw [h]

/-- What `handleDisconnect` does for a mobile video producer: remove the
connection, drop the stream's tracker entry, broadcast `offline`. -/
theorem handleDisconnect_of_mobile_producer (w : World) (c : Nat) (now : Nat)
    (m : ClientMetadata) (hm : w.cm.getMetadata (alGet w.wsData c) c = some m)
    (hmob : m.clientType = ClientType.mobile) (hvid : MT.video ∈ m.produces) :
    handleDisconnect w c now =
      broadcastStatus
        { w with cm := (w.cm.removeConnection (alGet w.wsData c) c).1,
                 metrics := removeStream w.metrics m.streamId }
        m.streamId "offline" now := by
  unfold handleDisconnect
  dsimp only
  rw [removeConnection_snd w.cm (alGet w.wsData c) c m hm]
  dsimp only
  rw [if_pos hvid]
  rw [if_pos ⟨hmob, hvid⟩]

/-- C7: disconnecting the registered mobile video producer of stream `s`
clears the producer slot, deletes the tracker entry (`getFPS` returns 0)
and sends a `status: offline` event for `s` to every remaining open
consumer of either kind. -/
theorem c7_producer_disconnect (w : World) (c : Nat) (s : String) (now : Nat)
    (m : ClientMetadata)
    (hmeta : alGet w.cm.connectionMetadata c = some m)
    (hmob : m.clientType = ClientType.mobile)
    (hvid : MT.video ∈ m.produces)
    (hsid : m.streamId = s)
    (hprod : alGet w.cm.videoProducers s = some c) :
    (handleDisconnect w c now).cm.getProducer s MT.video = none ∧
    getFPS (handleDisconnect w c now).metrics s = 0 ∧
    (∀ d2 : Nat, (d2 ∈ (handleDisconnect w c now).cm.getConsumers s MT.video ∨
        d2 ∈ (handleDisconnect w c now).cm.getConsumers s MT.alert) →
      d2 ∉ w.closed →
      (d2, OutMsg.statusMsg s "offline" now) ∈ (handleDisconnect w c now).sent) := by
  subst hsid
  have hm : w.cm.getMetadata (alGet w.wsData c) c = some m :=
    getMetadata_of_map w.cm _ c m hmeta
  rw [handleDisconnect_of_mobile_producer w c now m hm hmob hvid]
  refine ⟨?_, ?_, ?_⟩
  · show ConnectionManager.getProducer (broadcastStatus _ m.streamId "offline" now).cm
      m.streamId MT.video = none
    rw [broadcastStatus_cm]
    show alGet (w.cm.removeConnection (alGet w.wsData c) c).1.videoProducers m.streamId = none
    rw [videoProducers_removeConnection_of_meta w.cm _ c m hm m.streamId]
    rw [if_pos ⟨rfl, hvid, hprod⟩]
  · rw [broadcastStatus_metrics]
    show getFPS (removeStream w.metrics m.streamId) m.streamId = 0
    unfold getFPS removeStream
    rw [alGet_alErase_self]
    rfl
  · intro d2 hd2 hopen
    rw [broadcastStatus_cm] at hd2
    rw [broadcastStatus_sent]
    refine List.mem_append_right _ ?_
    refine mem_deliveredTo _ _ _ _ ?_ hopen
    rcases hd2 with h | h
    · exact List.mem_append_left _ h
    · exact List.mem_append_right _ h

/-- C7 witness: on the concrete producer world, disconnecting connection 0
clears the slot, zeroes the FPS and notifies consumer 1. -/
theorem c7_witness :
    (handleDisconnect wProd 0 9).cm.getProducer "s1" MT.video = none ∧
    getFPS (handleDisconnect wProd 0 9).metrics "s1" = 0 ∧
    (1, OutMsg.statusMsg "s1" "offline" 9) ∈ (handleDisconnect wProd 0 9).sent := by
  have h := c7_producer_disconnect wProd 0 "s1" 9 mdBase (by decide) (by decide)
    (by decide) (by decide) (by decide)
  refine ⟨h.1, h.2.1, ?_⟩
  refine h.2.2 1 ?_ (by decide)
  left
  decide

theorem foldProducers_connectionMetadata (l : List MT) (cm : ConnectionManager)
    (s : String) (c : Nat) :
    (l.foldl (fun cm2 t => cm2.registerProducer s c t) cm).connectionMetadata =
      cm.connectionMetadata := by
  induction l generalizing cm with
  | nil => rfl
  | cons t rest ih =>
    show (rest.foldl _ (cm.registerProducer s c t)).connectionMetadata = _
    rw [ih, registerProducer_connectionMetadata]

theorem foldProducers_videoConsumers (l : List MT) (cm : ConnectionManager)
    (s : String) (c : Nat) :
    (l.foldl (fun cm2 t => cm2.registerProducer s c t) cm).videoConsumers =
      cm.videoConsumers := by
  induction l generalizing cm with
  | nil => rfl
  | cons t rest ih =>
    show (rest.foldl _ (cm.registerProducer s c t)).videoConsumers = _
    rw [ih, registerProducer_videoConsumers]

theorem foldProducers_alertConsumers (l : List MT) (cm : ConnectionManager)
    (s : String) (c : Nat) :
    (l.foldl (fun cm2 t => cm2.registerProducer s c t) cm).alertConsumers =
      cm.alertConsumers := by
  induction l generalizing cm with
  | nil => rfl
  | cons t rest ih =>
    show (rest.foldl _ (cm.registerProducer s c t)).alertConsumers = _
    rw [ih, registerProducer_alertConsumers]

theorem foldConsumers_connectionMetadata (l : List MT) (cm : ConnectionManager)
    (s : String) (c : Nat) :
    (l.foldl (fun cm2 t => cm2.registerConsumer s c t) cm).connectionMetadata =
      cm.connectionMetadata := by
  induction l generalizing cm with
  | nil => rfl
  | cons t rest ih =>
    show (rest.foldl _ (cm.registerConsumer s c t)).connectionMetadata = _
    rw [ih, registerConsumer_connectionMetadata]

theorem foldConsumers_videoProducers (l : List MT) (cm : ConnectionManager)
    (s : String) (c : Nat) :
    (l.foldl (fun cm2 t => cm2.registerConsumer s c t) cm).videoProducers =
      cm.videoProducers := by
  induction l generalizing cm with
  | nil => rfl
  | cons t rest ih =>
    show (rest.foldl _ (cm.registerConsumer s c t)).videoProducers = _
    rw [ih, registerConsumer_videoProducers]

theorem foldProducers_videoProducers_of_not_mem (l : List MT) (cm : ConnectionManager)
    (s : String) (c : Nat) (h : MT.video ∉ l) :
    (l.foldl (fun cm2 t => cm2.registerProducer s c t) cm).videoProducers =
      cm.videoProducers := by
  induction l generalizing cm with
  | nil => rfl
  | cons t rest ih =>
    show (rest.foldl _ (cm.registerProducer s c t)).videoProducers = _
    have hts : t ≠ MT.video := fun he => h (he ▸ List.mem_cons_self _ _)
    have hr : MT.video ∉ rest := fun he => h (List.mem_cons_of_mem _ he)
    rw [ih _ hr]
    cases t with
    | video => exact absurd rfl hts
    | alert => rfl

theorem foldProducers_videoProducers_self (l : List MT) (cm : ConnectionManager)
    (s : String) (c : Nat) (h : MT.video ∈ l) :
    alGet (l.foldl (fun cm2 t => cm2.registerProducer s c t) cm).videoProducers s =
      some c := by
  induction l generalizing cm with
  | nil => simp at h
  | cons t rest ih =>
    show alGet (rest.foldl _ (cm.registerProducer s c t)).videoProducers s = some c
    by_cases hr : MT.video ∈ rest
    · exact ih _ hr
    · rw [foldProducers_videoProducers_of_not_mem rest _ s c hr]
      rcases List.mem_cons.mp h with he | he
      · rw [← he]
        show alGet (alSet cm.videoProducers s c) s = some c
        exact alGet_alSet_self _ _ _
      · exact absurd he hr

theorem foldProducers_alGet_ne (l : List MT) (cm : ConnectionManager) (s s0 : String)
    (c : Nat) (h : s ≠ s0) :
    alGet (l.foldl (fun cm2 t => cm2.registerProducer s c t) cm).videoProducers s0 =
      alGet cm.videoProducers s0 := by
  induction l generalizing cm with
  | nil => rfl
  | cons t rest ih =>
    show alGet (rest.foldl _ (cm.registerProducer s c t)).videoProducers s0 = _
    rw [ih]
    cases t with
    | video =>
      show alGet (alSet cm.videoProducers s c) s0 = _
      exact alGet_alSet_ne _ _ h
    | alert => rfl

theorem mem_getConsumers_registerConsumer (cm : ConnectionManager) (s : String) (c : Nat)
    (t : MT) (s' : String) (k : MT) (c' : Nat) (h : c' ∈ cm.getConsumers s' k) :
    c' ∈ (cm.registerConsumer s c t).getConsumers s' k := by
  cases k
  · rw [getConsumers_video] at h ⊢
    rw [mem_vListOf_registerConsumer]
    exact Or.inl h
  · rw [getConsumers_alert] at h ⊢
    rw [mem_aListOf_registerConsumer]
    exact Or.inl h

theorem mem_getConsumers_registerConsumer_self (cm : ConnectionManager) (s : String)
    (c : Nat) (k : MT) : c ∈ (cm.registerConsumer s c k).getConsumers s k := by
  cases k
  · rw [getConsumers_video, mem_vListOf_registerConsumer]
    exact Or.inr ⟨rfl, rfl, rfl⟩
  · rw [getConsumers_alert, mem_aListOf_registerConsumer]
    exact Or.inr ⟨rfl, rfl, rfl⟩

theorem mem_getConsumers_foldConsumers_mono (l : List MT) (cm : ConnectionManager)
    (s : String) (c : Nat) (s' : String) (k : MT) (c' : Nat)
    (h : c' ∈ cm.getConsumers s' k) :
    c' ∈ (l.foldl (fun cm2 t => cm2.registerConsumer s c t) cm).getConsumers s' k := by
  induction l generalizing cm with
  | nil => exact h
  | cons t rest ih =>
    show c' ∈ (rest.foldl _ (cm.registerConsumer s c t)).getConsumers s' k
    exact ih _ (mem_getConsumers_registerConsumer cm s c t s' k c' h)

theorem mem_getConsumers_foldConsumers (l : List MT) (cm : ConnectionManager)
    (s : String) (c : Nat) (k : MT) (hk : k ∈ l) :
    c ∈ (l.foldl (fun cm2 t => cm2.registerConsumer s c t) cm).getConsumers s k := by
  induction l generalizing cm with
  | nil => simp at hk
  | cons t rest ih =>
    show c ∈ (rest.foldl _ (cm.registerConsumer s c t)).getConsumers s k
    rcases List.mem_cons.mp hk with he | he
    · subst he
      exact mem_getConsumers_foldConsumers_mono rest _ s c s k c
        (mem_getConsumers_registerConsumer_self cm s c k)
    · exact ih _ he

theorem getConsumers_registerConsumer_ne (cm : ConnectionManager) (s : String) (c : Nat)
    (t : MT) (s0 : String) (k : MT) (h : s ≠ s0) :
    (cm.registerConsumer s c t).getConsumers s0 k = cm.getConsumers s0 k := by
  cases k
  · rw [getConsumers_video, getConsumers_video]
    cases t
    · rw [vListOf_registerConsumer_video, if_neg h]
    · rw [vListOf_registerConsumer_alert]
  · rw [getConsumers_alert, getConsumers_alert]
    cases t
    · rw [aListOf_registerConsumer_video]
    · rw [aListOf_registerConsumer_alert, if_neg h]

theorem getConsumers_foldConsumers_ne (l : List MT) (cm : ConnectionManager) (s : String)
    (c : Nat) (s0 : String) (k : MT) (h : s ≠ s0) :
    (l.foldl (fun cm2 t => cm2.registerConsumer s c t) cm).getConsumers s0 k =
      cm.getConsumers s0 k := by
  induction l generalizing cm with
  | nil => rfl
  | cons t rest ih =>
    show (rest.foldl _ (cm.registerConsumer s c t)).getConsumers s0 k = _
    rw [ih, getConsumers_registerConsumer_ne cm s c t s0 k h]

theorem genStreamId_ne_empty (now : Nat) (suffix : String) :
    genStreamId now suffix ≠ "" := by
  unfold genStreamId
  intro h
  have hlen : ("stream_" ++ toString now ++ "_" ++ suffix).length = 0 := by
    rw [h]
    rfl
  rw [String.length_append, String.length_append, String.length_append] at hlen
  have h7 : "stream_".length = 7 := rfl
  omega

/-- The registry the register handler leaves behind when the connection is
authenticated: metadata stored, then producer and consumer folds over the
final stream id. -/
theorem handleRegister_cm_auth (w : World) (ws : Nat) (msg : RegisterMsg) (now : Nat)
    (suffix : String) (d : ClientMetadata) (hd : alGet w.wsData ws = some d)
    (hauth : d.authenticated = true) (hu : ¬ d.userId = none) :
    (handleRegister w ws msg now suffix).cm =
      msg.consumes.foldl
        (fun cm2 t => cm2.registerConsumer
          (if msg.streamId = "" then genStreamId now suffix else msg.streamId) ws t)
        (msg.produces.foldl
          (fun cm2 t => cm2.registerProducer
            (if msg.streamId = "" then genStreamId now suffix else msg.streamId) ws t)
          (w.cm.setMetadata ws (registerMetadata d msg
            (if msg.streamId = "" then genStreamId now suffix else msg.streamId)))) := by
  unfold handleRegister
  rw [hd]
  dsimp only
  rw [if_neg (by simp [hauth])]
  rw [if_neg hu]
  split
  · rw [broadcastStatus_cm]
    simp
  · simp

/-- The success reply of the register handler, containing the final stream
id, reaches the (open) sender. -/
theorem handleRegister_sent_success (w : World) (ws : Nat) (msg : RegisterMsg) (now : Nat)
    (suffix : String) (d : ClientMetadata) (hd : alGet w.wsData ws = some d)
    (hauth : d.authenticated = true) (hu : ¬ d.userId = none) (hopen : ws ∉ w.closed) :
    (ws, OutMsg.successMsg ("Registration successful. Stream ID: " ++
        (if msg.streamId = "" then genStreamId now suffix else msg.streamId)) now) ∈
      (handleRegister w ws msg now suffix).sent := by
  unfold handleRegister
  rw [hd]
  dsimp only
  rw [if_neg (by simp [hauth])]
  rw [if_neg hu]
  split
  · rw [broadcastStatus_sent]
    refine List.mem_append_left _ ?_
    simp [sendSuccess, trySend, hopen]
  · simp [sendSuccess, trySend, hopen]

/-- C10: a register message whose `streamId` is the empty string is treated
as having no stream id: the handler generates `stream_<millis>_<suffix>`,
stores the metadata and every producer/consumer registration under the
generated id, leaves the empty string unused as a registry key, and the
success reply names the generated id. -/
theorem c10_register_generates_streamId (w : World) (ws : Nat) (msg : RegisterMsg)
    (now : Nat) (suffix : String) (d : ClientMetadata)
    (hd : alGet w.wsData ws = some d) (hauth : d.authenticated = true)
    (hu : ¬ d.userId = none) (hopen : ws ∉ w.closed) (hsid : msg.streamId = "") :
    alGet (handleRegister w ws msg now suffix).cm.connectionMetadata ws =
      some (registerMetadata d msg (genStreamId now suffix)) ∧
    (MT.video ∈ msg.produces →
      (handleRegister w ws msg now suffix).cm.getProducer (genStreamId now suffix)
        MT.video = some ws) ∧
    (∀ k ∈ msg.consumes,
      ws ∈ (handleRegister w ws msg now suffix).cm.getConsumers (genStreamId now suffix) k) ∧
    alGet (handleRegister w ws msg now suffix).cm.videoProducers "" =
      alGet w.cm.videoProducers "" ∧
    (handleRegister w ws msg now suffix).cm.getConsumers "" MT.video =
      w.cm.getConsumers "" MT.video ∧
    (handleRegister w ws msg now suffix).cm.getConsumers "" MT.alert =
      w.cm.getConsumers "" MT.alert ∧
    (ws, OutMsg.successMsg ("Registration successful. Stream ID: " ++
        genStreamId now suffix) now) ∈ (handleRegister w ws msg now suffix).sent := by
  have hfid : (if msg.streamId = "" then genStreamId now suffix else msg.streamId) =
      genStreamId now suffix := if_pos hsid
  have hcm := handleRegister_cm_auth w ws msg now suffix d hd hauth hu
  rw [hfid] at hcm
  have hne : genStreamId now suffix ≠ "" := genStreamId_ne_empty now suffix
  refine ⟨?_, ?_, ?_, ?_, ?_, ?_, ?_⟩
  · rw [hcm, foldConsumers_connectionMetadata, foldProducers_connectionMetadata]
    show alGet (alSet w.cm.connectionMetadata ws (registerMetadata d msg
      (genStreamId now suffix))) ws = _
    exact alGet_alSet_self _ _ _
  · intro hv
    show alGet (handleRegister w ws msg now suffix).cm.videoProducers
      (genStreamId now suffix) = some ws
    rw [hcm, foldConsumers_videoProducers]
    exact foldProducers_videoProducers_self _ _ _ _ hv
  · intro k hk
    rw [hcm]
    exact mem_getConsumers_foldConsumers _ _ _ _ _ hk
  · rw [hcm, foldConsumers_videoProducers]
    rw [foldProducers_alGet_ne _ _ _ _ _ hne]
    rfl
  · rw [hcm]
    rw [getConsumers_foldConsumers_ne _ _ _ _ _ _ hne]
    rw [getConsumers_video, getConsumers_video]
    unfold vListOf
    rw [foldProducers_videoConsumers]
    rfl
  · rw [hcm]
    rw [getConsumers_foldConsumers_ne _ _ _ _ _ _ hne]
    rw [getConsumers_alert, getConsumers_alert]
    unfold aListOf
    rw [foldProducers_alertConsumers]
    rfl
  · have hsent := handleRegister_sent_success w ws msg now suffix d hd hauth hu hopen
    rw [hfid] at hsent
    exact hsent

/-- C10 witness: registering with an empty stream id on the concrete world
stores metadata under the generated id, occupies its producer slot and
reports it in the success reply. -/
theorem c10_witness :
    alGet (handleRegister wFan 0 regDemo 42 "abc").cm.connectionMetadata 0 =
      some (registerMetadata mdBase regDemo (genStreamId 42 "abc")) ∧
    (handleRegister wFan 0 regDemo 42 "abc").cm.getProducer (genStreamId 42 "abc")
      MT.video = some 0 ∧
    (0, OutMsg.successMsg ("Registration successful. Stream ID: " ++
        genStreamId 42 "abc") 42) ∈ (handleRegister wFan 0 regDemo 42 "abc").sent := by
  have h := c10_register_generates_streamId wFan 0 regDemo 42 "abc" mdBase
    (by decide) (by decide) (by decide) (by decide) (by decide)
  exact ⟨h.1, h.2.1 (by decide), h.2.2.2.2.2.2⟩

theorem getConsumers_setMetadata (cm : ConnectionManager) (ws : Nat) (m : ClientMetadata)
    (s0 : String) (k : MT) : (cm.setMetadata ws m).getConsumers s0 k = cm.getConsumers s0 k := by
  cases k <;> rfl

theorem getConsumers_foldProducers (l : List MT) (cm : ConnectionManager) (s : String)
    (c : Nat) (s0 : String) (k : MT) :
    (l.foldl (fun cm2 t => cm2.registerProducer s c t) cm).getConsumers s0 k =
      cm.getConsumers s0 k := by
  cases k
  · rw [getConsumers_video, getConsumers_video]
    unfold vListOf
    rw [foldProducers_videoConsumers]
  · rw [getConsumers_alert, getConsumers_alert]
    unfold aListOf
    rw [foldProducers_alertConsumers]

theorem mem_getConsumers_foldConsumers_iff (l : List MT) (cm : ConnectionManager)
    (s : String) (c : Nat) (s0 : String) (k : MT) (c' : Nat) :
    (c' ∈ (l.foldl (fun cm2 t => cm2.registerConsumer s c t) cm).getConsumers s0 k ↔
      (c' ∈ cm.getConsumers s0 k ∨ (c' = c ∧ s0 = s ∧ k ∈ l))) := by
  induction l generalizing cm with
  | nil => simp
  | cons t rest ih =>
    show c' ∈ (rest.foldl _ (cm.registerConsumer s c t)).getConsumers s0 k ↔ _
    rw [ih]
    have hstep : c' ∈ (cm.registerConsumer s c t).getConsumers s0 k ↔
        (c' ∈ cm.getConsumers s0 k ∨ (t = k ∧ c' = c ∧ s = s0)) := by
      cases k
      · rw [getConsumers_video, getConsumers_video]
        exact mem_vListOf_registerConsumer cm s s0 c c' t
      · rw [getConsumers_alert, getConsumers_alert]
        exact mem_aListOf_registerConsumer cm s s0 c c' t
    rw [hstep]
    constructor
    · rintro ((h | ⟨ht, hc, hs⟩) | ⟨hc, hs, hk⟩)
      · exact Or.inl h
      · exact Or.inr ⟨hc, hs.symm, ht ▸ List.mem_cons_self t rest⟩
      · exact Or.inr ⟨hc, hs, List.mem_cons_of_mem _ hk⟩
    · rintro (h | ⟨hc, hs, hk⟩)
      · exact Or.inl (Or.inl h)
      · rcases List.mem_cons.mp hk with he | he
        · exact Or.inl (Or.inr ⟨he.symm, hc, hs.symm⟩)
        · exact Or.inr ⟨hc, hs, he⟩

theorem mem_applyOp_register (st : RState) (d : Nat) (m : ClientMetadata) (c' : Nat)
    (s : String) (k : MT) :
    (c' ∈ (applyOp st (RegOp.register d m)).cm.getConsumers s k ↔
      (c' ∈ st.cm.getConsumers s k ∨ (c' = d ∧ s = m.streamId ∧ k ∈ m.consumes))) := by
  unfold applyOp
  dsimp only
  rw [mem_getConsumers_foldConsumers_iff]
  rw [getConsumers_foldProducers, getConsumers_setMetadata]

theorem mem_applyOp_subscribe (st : RState) (d : Nat) (m : ClientMetadata) (c' : Nat)
    (s : String) (k : MT) :
    (c' ∈ (applyOp st (RegOp.subscribe d m)).cm.getConsumers s k ↔
      (c' ∈ st.cm.getConsumers s k ∨ (c' = d ∧ s = m.streamId ∧ k ∈ m.consumes))) := by
  unfold applyOp
  dsimp only
  rw [mem_getConsumers_foldConsumers_iff]
  rw [getConsumers_setMetadata]

theorem meta_applyOp_register (st : RState) (d : Nat) (m : ClientMetadata) (c' : Nat) :
    alGet (applyOp st (RegOp.register d m)).cm.connectionMetadata c' =
      if d = c' then some m else alGet st.cm.connectionMetadata c' := by
  unfold applyOp
  dsimp only
  rw [foldConsumers_connectionMetadata, foldProducers_connectionMetadata]
  exact alGet_alSet _ _ _ _

theorem meta_applyOp_subscribe (st : RState) (d : Nat) (m : ClientMetadata) (c' : Nat) :
    alGet (applyOp st (RegOp.subscribe d m)).cm.connectionMetadata c' =
      if d = c' then some { m with produces := ([] : List MT) }
      else alGet st.cm.connectionMetadata c' := by
  unfold applyOp
  dsimp only
  rw [foldConsumers_connectionMetadata]
  exact alGet_alSet _ _ _ _

theorem mem_getConsumers_removeConnection_of_meta (cm : ConnectionManager)
    (fb : Option ClientMetadata) (ws : Nat) (m : ClientMetadata)
    (h : cm.getMetadata fb ws = some m) (c' : Nat) (s : String) (k : MT) :
    (c' ∈ (cm.removeConnection fb ws).1.getConsumers s k ↔
      (c' ∈ cm.getConsumers s k ∧ ¬(c' = ws ∧ s = m.streamId ∧ k ∈ m.consumes))) := by
  cases k
  · rw [getConsumers_video, getConsumers_video]
    exact vmem_removeConnection_of_meta cm fb ws m h c' s
  · rw [getConsumers_alert, getConsumers_alert]
    exact amem_removeConnection_of_meta cm fb ws m h c' s

/-- A first registration from a clean state produces exactly the
memberships the metadata describes. -/
theorem registeredIn_applyOp_register (st : RState) (c : Nat) (m : ClientMetadata)
    (hg : GoneIn st c) : RegisteredIn (applyOp st (RegOp.register c m)) c m := by
  refine ⟨?_, ?_, ?_⟩
  · rw [meta_applyOp_register, if_pos rfl]
  · intro s
    rw [mem_applyOp_register]
    constructor
    · rintro (h | ⟨_, hs, hk⟩)
      · exact absurd h (hg.2 s).1
      · exact ⟨hs, hk⟩
    · rintro ⟨hs, hk⟩
      exact Or.inr ⟨rfl, hs, hk⟩
  · intro s
    rw [mem_applyOp_register]
    constructor
    · rintro (h | ⟨_, hs, hk⟩)
      · exact absurd h (hg.2 s).2
      · exact ⟨hs, hk⟩
    · rintro ⟨hs, hk⟩
      exact Or.inr ⟨rfl, hs, hk⟩

/-- A first subscription from a clean state likewise. -/
theorem registeredIn_applyOp_subscribe (st : RState) (c : Nat) (m : ClientMetadata)
    (hg : GoneIn st c) :
    RegisteredIn (applyOp st (RegOp.subscribe c m)) c { m with produces := ([] : List MT) } := by
  refine ⟨?_, ?_, ?_⟩
  · rw [meta_applyOp_subscribe, if_pos rfl]
  · intro s
    rw [mem_applyOp_subscribe]
    constructor
    · rintro (h | ⟨_, hs, hk⟩)
      · exact absurd h (hg.2 s).1
      · exact ⟨hs, hk⟩
    · rintro ⟨hs, hk⟩
      exact Or.inr ⟨rfl, hs, hk⟩
  · intro s
    rw [mem_applyOp_subscribe]
    constructor
    · rintro (h | ⟨_, hs, hk⟩)
      · exact absurd h (hg.2 s).2
      · exact ⟨hs, hk⟩
    · rintro ⟨hs, hk⟩
      exact Or.inr ⟨rfl, hs, hk⟩

/-- Disconnecting a registered connection restores the clean state: the
removal consults exactly the current metadata, which describes all
memberships. -/
theorem goneIn_applyOp_disconnect_of_registered (st : RState) (c : Nat)
    (m : ClientMetadata) (hr : RegisteredIn st c m) :
    GoneIn (applyOp st (RegOp.disconnect c)) c := by
  have hm : st.cm.getMetadata (alGet st.wsData c) c = some m :=
    getMetadata_of_map _ _ _ _ hr.1
  refine ⟨?_, ?_⟩
  · show alGet (st.cm.removeConnection (alGet st.wsData c) c).1.connectionMetadata c = none
    rw [meta_removeConnection, if_pos rfl]
  · intro s
    constructor
    · intro hmem
      have hch := (mem_getConsumers_removeConnection_of_meta st.cm _ c m hm c s
        MT.video).mp hmem
      have hbefore := (hr.2.1 s).mp hch.1
      exact hch.2 ⟨rfl, hbefore.1, hbefore.2⟩
    · intro hmem
      have hch := (mem_getConsumers_removeConnection_of_meta st.cm _ c m hm c s
        MT.alert).mp hmem
      have hbefore := (hr.2.2 s).mp hch.1
      exact hch.2 ⟨rfl, hbefore.1, hbefore.2⟩

/-- Any operation that is not a register/subscribe of `c` keeps `c` clean:
registrations of other connections only add those connections, and removals
only delete. -/
theorem goneIn_applyOp (st : RState) (c : Nat) (op : RegOp) (hg : GoneIn st c)
    (hop : opIsRegSubOf op c = false) : GoneIn (applyOp st op) c := by
  cases op with
  | register d m =>
    have hdc : d ≠ c := by
      intro he
      subst he
      simp [opIsRegSubOf] at hop
    refine ⟨?_, ?_⟩
    · rw [meta_applyOp_register, if_neg hdc, hg.1]
    · intro s
      constructor
      · intro hmem
        rcases (mem_applyOp_register st d m c s MT.video).mp hmem with h | ⟨hc, _, _⟩
        · exact (hg.2 s).1 h
        · exact hdc hc.symm
      · intro hmem
        rcases (mem_applyOp_register st d m c s MT.alert).mp hmem with h | ⟨hc, _, _⟩
        · exact (hg.2 s).2 h
        · exact hdc hc.symm
  | subscribe d m =>
    have hdc : d ≠ c := by
      intro he
      subst he
      simp [opIsRegSubOf] at hop
    refine ⟨?_, ?_⟩
    · rw [meta_applyOp_subscribe, if_neg hdc, hg.1]
    · intro s
      constructor
      · intro hmem
        rcases (mem_applyOp_subscribe st d m c s MT.video).mp hmem with h | ⟨hc, _, _⟩
        · exact (hg.2 s).1 h
        · exact hdc hc.symm
      · intro hmem
        rcases (mem_applyOp_subscribe st d m c s MT.alert).mp hmem with h | ⟨hc, _, _⟩
        · exact (hg.2 s).2 h
        · exact hdc hc.symm
  | disconnect d =>
    cases hmd : st.cm.getMetadata (alGet st.wsData d) d with
    | none =>
      have hun : (st.cm.removeConnection (alGet st.wsData d) d).1 = st.cm := by
        rw [removeConnection_of_meta_none _ _ _ hmd]
      refine ⟨?_, ?_⟩
      · show alGet (st.cm.removeConnection (alGet st.wsData d) d).1.connectionMetadata c = none
        rw [hun]
        exact hg.1
      · intro s
        constructor
        · intro hmem
          refine (hg.2 s).1 ?_
          show c ∈ st.cm.getConsumers s MT.video
          rw [← hun]
          exact hmem
        · intro hmem
          refine (hg.2 s).2 ?_
          show c ∈ st.cm.getConsumers s MT.alert
          rw [← hun]
          exact hmem
    | some m0 =>
      refine ⟨?_, ?_⟩
      · show alGet (st.cm.removeConnection (alGet st.wsData d) d).1.connectionMetadata c = none
        rw [meta_removeConnection]
        split
        · rfl
        · exact hg.1
      · intro s
        constructor
        · intro hmem
          exact (hg.2 s).1 ((mem_getConsumers_removeConnection_of_meta st.cm _ d m0 hmd
            c s MT.video).mp hmem).1
        · intro hmem
          exact (hg.2 s).2 ((mem_getConsumers_removeConnection_of_meta st.cm _ d m0 hmd
            c s MT.alert).mp hmem).1

/-- Operations about other connections keep `c` registered, with the same
memberships. -/
theorem registeredIn_applyOp (st : RState) (c : Nat) (m : ClientMetadata) (op : RegOp)
    (hr : RegisteredIn st c m) (hne : opSubject op ≠ c) :
    RegisteredIn (applyOp st op) c m := by
  cases op with
  | register d m0 =>
    have hdc : d ≠ c := hne
    refine ⟨?_, ?_, ?_⟩
    · rw [meta_applyOp_register, if_neg hdc, hr.1]
    · intro s
      rw [mem_applyOp_register]
      constructor
      · rintro (h | ⟨hc, _, _⟩)
        · exact (hr.2.1 s).mp h
        · exact absurd hc.symm hdc
      · intro h
        exact Or.inl ((hr.2.1 s).mpr h)
    · intro s
      rw [mem_applyOp_register]
      constructor
      · rintro (h | ⟨hc, _, _⟩)
        · exact (hr.2.2 s).mp h
        · exact absurd hc.symm hdc
      · intro h
        exact Or.inl ((hr.2.2 s).mpr h)
  | subscribe d m0 =>
    have hdc : d ≠ c := hne
    refine ⟨?_, ?_, ?_⟩
    · rw [meta_applyOp_subscribe, if_neg hdc, hr.1]
    · intro s
      rw [mem_applyOp_subscribe]
      constructor
      · rintro (h | ⟨hc, _, _⟩)
        · exact (hr.2.1 s).mp h
        · exact absurd hc.symm hdc
      · intro h
        exact Or.inl ((hr.2.1 s).mpr h)
    · intro s
      rw [mem_applyOp_subscribe]
      constructor
      · rintro (h | ⟨hc, _, _⟩)
        · exact (hr.2.2 s).mp h
        · exact absurd hc.symm hdc
      · intro h
        exact Or.inl ((hr.2.2 s).mpr h)
  | disconnect d =>
    have hdc : d ≠ c := hne
    cases hmd : st.cm.getMetadata (alGet st.wsData d) d with
    | none =>
      have hun : (st.cm.removeConnection (alGet st.wsData d) d).1 = st.cm := by
        rw [removeConnection_of_meta_none _ _ _ hmd]
      refine ⟨?_, ?_, ?_⟩
      · show alGet (st.cm.removeConnection (alGet st.wsData d) d).1.connectionMetadata c
          = some m
        rw [hun]
        exact hr.1
      · intro s
        show c ∈ (st.cm.removeConnection (alGet st.wsData d) d).1.getConsumers s MT.video ↔ _
        rw [hun]
        exact hr.2.1 s
      · intro s
        show c ∈ (st.cm.removeConnection (alGet st.wsData d) d).1.getConsumers s MT.alert ↔ _
        rw [hun]
        exact hr.2.2 s
    | some m0 =>
      refine ⟨?_, ?_, ?_⟩
      · show alGet (st.cm.removeConnection (alGet st.wsData d) d).1.connectionMetadata c
          = some m
        rw [meta_removeConnection, if_neg (fun he => hdc he.symm)]
        exact hr.1
      · intro s
        show c ∈ (st.cm.removeConnection (alGet st.wsData d) d).1.getConsumers s MT.video ↔ _
        rw [mem_getConsumers_removeConnection_of_meta st.cm _ d m0 hmd c s MT.video]
        constructor
        · intro h
          exact (hr.2.1 s).mp h.1
        · intro h
          exact ⟨(hr.2.1 s).mpr h, fun hx => hdc hx.1.symm⟩
      · intro s
        show c ∈ (st.cm.removeConnection (alGet st.wsData d) d).1.getConsumers s MT.alert ↔ _
        rw [mem_getConsumers_removeConnection_of_meta st.cm _ d m0 hmd c s MT.alert]
        constructor
        · intro h
          exact (hr.2.2 s).mp h.1
        · intro h
          exact ⟨(hr.2.2 s).mpr h, fun hx => hdc hx.1.symm⟩

theorem regsubCount_cons (c : Nat) (op : RegOp) (rest : List RegOp) :
    regsubCount c (op :: rest) =
      regsubCount c rest + (if opIsRegSubOf op c then 1 else 0) := by
  unfold regsubCount
  rw [List.countP_cons]

/-- `GoneOrReg` is preserved along any trace containing no further
register/subscribe about `c`. -/
theorem goneOrReg_steps (l : List RegOp) (st : RState) (c : Nat)
    (h : GoneOrReg st c) (hcnt : regsubCount c l = 0) :
    GoneOrReg (applyOps l st) c := by
  induction l generalizing st with
  | nil => exact h
  | cons op rest ih =>
    rw [regsubCount_cons] at hcnt
    have hop : opIsRegSubOf op c = false := by
      by_cases hx : opIsRegSubOf op c
      · rw [if_pos hx] at hcnt
        omega
      · exact Bool.eq_false_iff.mpr hx
    have hrest : regsubCount c rest = 0 := by
      rw [hop] at hcnt
      simpa using hcnt
    show GoneOrReg (applyOps rest (applyOp st op)) c
    refine ih (applyOp st op) ?_ hrest
    rcases h with hg | ⟨m, hr⟩
    · exact Or.inl (goneIn_applyOp st c op hg hop)
    · cases op with
      | register d m0 =>
        have hdc : d ≠ c := by
          intro he
          subst he
          simp [opIsRegSubOf] at hop
        exact Or.inr ⟨m, registeredIn_applyOp st c m (RegOp.register d m0) hr hdc⟩
      | subscribe d m0 =>
        have hdc : d ≠ c := by
          intro he
          subst he
          simp [opIsRegSubOf] at hop
        exact Or.inr ⟨m, registeredIn_applyOp st c m (RegOp.subscribe d m0) hr hdc⟩
      | disconnect d =>
        by_cases hdc : d = c
        · subst hdc
          exact Or.inl (goneIn_applyOp_disconnect_of_registered st d m hr)
        · exact Or.inr ⟨m, registeredIn_applyOp st c m (RegOp.disconnect d) hr hdc⟩

/-- From a clean state, a trace containing at most one register/subscribe
about `c` ends with `c` clean or registered. -/
theorem goneOrReg_from_gone (l : List RegOp) (st : RState) (c : Nat)
    (hg : GoneIn st c) (hcnt : regsubCount c l ≤ 1) :
    GoneOrReg (applyOps l st) c := by
  induction l generalizing st with
  | nil => exact Or.inl hg
  | cons op rest ih =>
    rw [regsubCount_cons] at hcnt
    show GoneOrReg (applyOps rest (applyOp st op)) c
    by_cases hop : opIsRegSubOf op c = true
    · have hrest : regsubCount c rest = 0 := by
        rw [if_pos hop] at hcnt
        omega
      refine goneOrReg_steps rest (applyOp st op) c ?_ hrest
      cases op with
      | register d m0 =>
        have hdc : d = c := by
          simpa [opIsRegSubOf] using hop
        subst hdc
        exact Or.inr ⟨m0, registeredIn_applyOp_register st d m0 hg⟩
      | subscribe d m0 =>
        have hdc : d = c := by
          simpa [opIsRegSubOf] using hop
        subst hdc
        exact Or.inr ⟨_, registeredIn_applyOp_subscribe st d m0 hg⟩
      | disconnect d =>
        simp [opIsRegSubOf] at hop
    · have hopf : opIsRegSubOf op c = false := Bool.eq_false_iff.mpr hop
      have hrest : regsubCount c rest ≤ 1 := by
        rw [hopf] at hcnt
        simpa using hcnt
      exact ih (applyOp st op) (goneIn_applyOp st c op hg hopf) hrest

/-- Clean stays clean along a trace with no register/subscribe about `c`. -/
theorem gone_steps (l : List RegOp) (st : RState) (c : Nat)
    (hg : GoneIn st c) (hcnt : regsubCount c l = 0) :
    GoneIn (applyOps l st) c := by
  induction l generalizing st with
  | nil => exact hg
  | cons op rest ih =>
    rw [regsubCount_cons] at hcnt
    have hop : opIsRegSubOf op c = false := by
      by_cases hx : opIsRegSubOf op c
      · rw [if_pos hx] at hcnt
        omega
      · exact Bool.eq_false_iff.mpr hx
    have hrest : regsubCount c rest = 0 := by
      rw [hop] at hcnt
      simpa using hcnt
    exact ih (applyOp st op) (goneIn_applyOp st c op hg hop) hrest

/-- C1 counterexample: connection 0 subscribes to `"s1"` for alerts, then
subscribes to `"s2"` (overwriting its stored metadata), then disconnects.
Its metadata record is gone, yet `getConsumers("s1", alert)` still contains
it — removal only consulted the overwritten metadata. -/
theorem c1_counterexample :
    alGet (applyOps opsStale initialRState).cm.connectionMetadata 0 = none ∧
    0 ∈ (applyOps opsStale initialRState).cm.getConsumers "s1" MT.alert := by
  constructor
  · decide
  · decide

/-- C1 (amended): over any trace of register/subscribe/disconnect
operations from the empty registry in which connection `c` is the subject
of at most one register/subscribe, once `c` disconnects and no later
register/subscribe concerns it, `getConsumers(s, k)` never contains `c`,
for any stream and kind.  (The unrestricted claim fails: a second
register/subscribe overwrites the metadata and strands the memberships of
the first, see the counterexample.) -/
theorem c1_amended_no_stale_consumers (l1 l2 : List RegOp) (c : Nat)
    (hcnt : regsubCount c (l1 ++ RegOp.disconnect c :: l2) ≤ 1)
    (hafter : regsubCount c l2 = 0) :
    ∀ (s : String) (k : MT),
      c ∉ (applyOps (l1 ++ RegOp.disconnect c :: l2) initialRState).cm.getConsumers s k := by
  have h1 : regsubCount c l1 ≤ 1 := by
    unfold regsubCount at hcnt ⊢
    rw [List.countP_append] at hcnt
    omega
  have hinit : GoneIn initialRState c := by
    refine ⟨rfl, ?_⟩
    intro s
    constructor
    · intro h
      simp [initialRState, ConnectionManager.empty, ConnectionManager.getConsumers,
        alGet] at h
    · intro h
      simp [initialRState, ConnectionManager.empty, ConnectionManager.getConsumers,
        alGet] at h
  have hmid := goneOrReg_from_gone l1 initialRState c hinit h1
  have hg2 : GoneIn (applyOp (applyOps l1 initialRState) (RegOp.disconnect c)) c := by
    rcases hmid with hg | ⟨m, hr⟩
    · exact goneIn_applyOp _ c (RegOp.disconnect c) hg rfl
    · exact goneIn_applyOp_disconnect_of_registered _ c m hr
  have hfin := gone_steps l2 _ c hg2 hafter
  have happ : applyOps (l1 ++ RegOp.disconnect c :: l2) initialRState =
      applyOps l2 (applyOp (applyOps l1 initialRState) (RegOp.disconnect c)) := by
    unfold applyOps
    rw [List.foldl_append, List.foldl_cons]
  rw [happ]
  intro s k
  cases k
  · exact (hfin.2 s).1
  · exact (hfin.2 s).2

/-- C1 witness: one subscription followed by a disconnect leaves the
connection in no consumer set. -/
theorem c1_witness :
    regsubCount 0 ([RegOp.subscribe 0 mdSub1] ++ RegOp.disconnect 0 :: []) ≤ 1 ∧
    regsubCount 0 ([] : List RegOp) = 0 ∧
    (∀ (s : String) (k : MT),
      0 ∉ (applyOps ([RegOp.subscribe 0 mdSub1] ++ RegOp.disconnect 0 :: [])
        initialRState).cm.getConsumers s k) :=
  ⟨by decide, by decide,
    c1_amended_no_stale_consumers [RegOp.subscribe 0 mdSub1] [] 0 (by decide) (by decide)⟩
